import Mathlib

/-!
# Kings Barbershop: queue ordering and service lifecycle

A shallow embedding of the queue engine of the barber-shop backend:

* `models/Queue.js`       (the capacity counters of one queue document),
* `models/QueueEntry.js`  (the status machine of one queue entry),
* `routes/queue.js`       (the add, call-next, update-status and remove handlers).

Conventions of the embedding.

* A Mongoose document is a Lean structure; a method that mutates `this` is a
  function returning an `Outcome`: the document as the method leaves it, and the
  message of the `Error` it threw (`none` when it returned normally).
* `Number` fields hold counts and whole minutes and are embedded as `Int`;
  `Date` fields are milliseconds since the epoch, also `Int`. An optional path
  is an `Option` (`none` for `undefined` / `null`).
* Every `new Date()` of the source is an explicit argument of the embedding, in
  the order in which the source reads the clock.
* The `save()` that ends a model method is taken to persist the document as the
  method left it.
* A route handler is a function of the model bindings of its module
  (`Imports`): a call on a name that is not bound, or of a method the model does
  not define, throws a `TypeError`, and the handler ends there.
* The schemas are strict: a path a schema does not declare (`queue_number`,
  `completed_at`) is not stored and reads `undefined`; a string assigned to the
  nested path `notes` makes `save()` reject, and nothing is stored.
-/

namespace KingsBarbershop

/-- An `ObjectId`. Every `ObjectId` is a truthy JavaScript value. -/
abbrev ObjectId := Nat

/-- The result of running a method on a document: `state` is the document as
the method leaves it, `thrown` the message of the error it threw, if any. -/
structure Outcome (σ : Type) where
  thrown : Option String
  state : σ
  deriving DecidableEq, Repr

/-- Whole minutes between two instants: `Math.floor((b - a) / (1000 * 60))`. -/
def minutesBetween (a b : Int) : Int := Int.fdiv (b - a) (1000 * 60)

/-! ## models/Queue.js -/

/-- Values of `queueSchema.status`. -/
inductive QueueStatus where
  | active | paused | closed
  deriving DecidableEq, Repr

/-- One element of `queueSchema.staff_assignments`. -/
structure StaffAssignment where
  staff_id : ObjectId
  is_available : Bool := true
  current_customer : Option ObjectId := none
  customers_served_today : Int := 0
  break_start : Option Int := none
  break_end : Option Int := none
  deriving DecidableEq, Repr

/-- The fields of `queueSchema` that the queue methods and handlers touch. -/
structure Queue where
  id : ObjectId := 0
  status : QueueStatus := QueueStatus.active
  max_capacity : Int := 50
  current_size : Int := 0
  average_wait_time : Int := 0
  estimated_wait_time : Int := 0
  total_served : Int := 0
  total_no_shows : Int := 0
  total_cancelled : Int := 0
  staff_assignments : List StaffAssignment := []
  last_updated : Int := 0
  deriving DecidableEq, Repr

namespace Queue

/-- Embedding of `queueSchema.methods.addCustomer`. -/
def addCustomer (q : Queue) (now : Int) : Outcome Queue :=
  if q.current_size < q.max_capacity then
    { thrown := none
      state := { q with current_size := q.current_size + 1, last_updated := now } }
  else
    { thrown := some "Queue is at maximum capacity", state := q }

/-- Embedding of `queueSchema.methods.removeCustomer`. -/
def removeCustomer (q : Queue) (now : Int) : Outcome Queue :=
  if q.current_size > 0 then
    { thrown := none
      state := { q with current_size := q.current_size - 1, last_updated := now } }
  else
    { thrown := none, state := q }

/-- Embedding of `queueSchema.methods.serveCustomer`. -/
def serveCustomer (q : Queue) (now : Int) : Outcome Queue :=
  removeCustomer { q with total_served := q.total_served + 1 } now

/-- Embedding of `queueSchema.methods.markNoShow`. -/
def markNoShow (q : Queue) (now : Int) : Outcome Queue :=
  removeCustomer { q with total_no_shows := q.total_no_shows + 1 } now

/-- Embedding of `queueSchema.methods.cancelCustomer`. -/
def cancelCustomer (q : Queue) (now : Int) : Outcome Queue :=
  removeCustomer { q with total_cancelled := q.total_cancelled + 1 } now

/-- Embedding of `queueSchema.methods.updateWaitTimes`. -/
def updateWaitTimes (q : Queue) (newAverageTime : Int) (now : Int) : Outcome Queue :=
  { thrown := none
    state := { q with
      average_wait_time := newAverageTime
      estimated_wait_time := q.current_size * newAverageTime
      last_updated := now } }

/-- The capacity bound `0 <= current_size <= max_capacity`. -/
def withinCapacity (q : Queue) : Prop :=
  0 ≤ q.current_size ∧ q.current_size ≤ q.max_capacity

instance (q : Queue) : Decidable (withinCapacity q) := by
  unfold withinCapacity; infer_instance

end Queue

/-- The operations on a queue document that claim C2 ranges over. -/
inductive QueueOp where
  | addCustomer
  | removeCustomer
  | serveCustomer
  | markNoShow
  | cancelCustomer
  | updateWaitTimes (newAverageTime : Int)
  deriving DecidableEq, Repr

/-- Runs one queue operation at clock reading `now`. -/
def QueueOp.run (op : QueueOp) (q : Queue) (now : Int) : Outcome Queue :=
  match op with
  | .addCustomer => q.addCustomer now
  | .removeCustomer => q.removeCustomer now
  | .serveCustomer => q.serveCustomer now
  | .markNoShow => q.markNoShow now
  | .cancelCustomer => q.cancelCustomer now
  | .updateWaitTimes t => q.updateWaitTimes t now

/-! ## models/QueueEntry.js -/

/-- Values of `queueEntrySchema.status`. -/
inductive EntryStatus where
  | waiting | called | in_service | completed | cancelled | no_show | skipped
  deriving DecidableEq, Repr

/-- Values of `queueEntrySchema.priority`. -/
inductive Priority where
  | low | normal | high | urgent
  deriving DecidableEq, Repr

/-- The string stored in the `priority` path: the schema types it as `String`. -/
def Priority.value : Priority → String
  | .low => "low"
  | .normal => "normal"
  | .high => "high"
  | .urgent => "urgent"

/-- The sub-document `payment_info`; an absent key is `none`. -/
structure PaymentInfo where
  amount_paid : Option Int := none
  payment_method : Option String := none
  payment_status : Option String := none
  discount_applied : Option Int := none
  final_amount : Option Int := none
  deriving DecidableEq, Repr

/-- Object spread of two payment records: the keys of `b` override those of `a`. -/
def PaymentInfo.spread (a b : PaymentInfo) : PaymentInfo :=
  { amount_paid := b.amount_paid <|> a.amount_paid
    payment_method := b.payment_method <|> a.payment_method
    payment_status := b.payment_status <|> a.payment_status
    discount_applied := b.discount_applied <|> a.discount_applied
    final_amount := b.final_amount <|> a.final_amount }

/-- One element of `queue_metrics.position_changes`. -/
structure PositionChange where
  from_position : Option Int
  to_position : Option Int
  timestamp : Int
  reason : String
  deriving DecidableEq, Repr

/-- One element of `queue_metrics.estimated_times`. -/
structure EstimateRecord where
  estimated_wait : Int
  timestamp : Int
  deriving DecidableEq, Repr

/-- The nested `notes` object of the schema. -/
structure Notes where
  customer_notes : Option String := none
  staff_notes : Option String := none
  internal_notes : Option String := none
  deriving DecidableEq, Repr

/-- The value held at the `notes` path: the nested object of the schema, or a
plain string, which is what the route handlers assign to it and what `save()`
does not store. -/
inductive NotesVal where
  | nested (n : Notes)
  | text (s : String)
  deriving DecidableEq, Repr

/-- Reads `notes.staff_notes`; a plain string has no such property. -/
def NotesVal.staff_notes : NotesVal → Option String
  | .nested n => n.staff_notes
  | .text _ => none

/-- Writes `notes.staff_notes`; assigning a property of a plain string has no
effect. -/
def NotesVal.setStaffNotes : NotesVal → String → NotesVal
  | .nested n, s => .nested { n with staff_notes := some s }
  | .text t, _ => .text t

/-- The sub-document `cancellation_info`. -/
structure CancellationInfo where
  reason : Option String
  cancelled_by : Option ObjectId
  cancelled_at : Int
  refund_issued : Bool
  deriving DecidableEq, Repr

/-- The fields of `queueEntrySchema` that the entry methods and the queue
handlers touch, with `joined_at`, the key the call-next query sorts the stored
documents on (`none` for a document that lacks it; the schema does not declare
the path). Paths that no modelled method reads or writes (`customer_info`,
`service_details`, `notifications`, `feedback`, `created_by`) are left out. -/
structure QueueEntry where
  id : ObjectId
  queue_id : ObjectId
  customer_id : ObjectId
  service_id : ObjectId
  staff_id : Option ObjectId := none
  position : Option Int := none
  status : EntryStatus := EntryStatus.waiting
  priority : Priority := Priority.normal
  entry_type : String := "walk_in"
  estimated_wait_time : Int := 0
  actual_wait_time : Option Int := none
  estimated_service_time : Int := 30
  actual_service_time : Option Int := none
  check_in_time : Int
  called_time : Option Int := none
  service_start_time : Option Int := none
  service_end_time : Option Int := none
  completion_time : Option Int := none
  payment_info : PaymentInfo := {}
  position_changes : List PositionChange := []
  estimated_times : List EstimateRecord := []
  notes : NotesVal := NotesVal.nested {}
  cancellation_info : Option CancellationInfo := none
  joined_at : Option Int := none
  deriving DecidableEq, Repr

namespace QueueEntry

/-- Embedding of the virtual `current_wait_time`, read at clock value `now`.
`this.actual_wait_time || 0` is `0` for an unset and for a zero value. -/
def current_wait_time (e : QueueEntry) (now : Int) : Int :=
  if e.status = .completed ∨ e.status = .cancelled ∨ e.status = .no_show then
    e.actual_wait_time.getD 0
  else
    minutesBetween e.check_in_time now

/-- Embedding of the virtual `is_active`. -/
def is_active (e : QueueEntry) : Bool :=
  e.status = .waiting ∨ e.status = .called ∨ e.status = .in_service

/-- Embedding of `queueEntrySchema.methods.calculateActualServiceTime`. A stored
`Date` is truthy, so the test is on the presence of the two paths. -/
def calculateActualServiceTime (e : QueueEntry) : Int :=
  match e.service_start_time, e.service_end_time with
  | some startTime, some endTime => minutesBetween startTime endTime
  | _, _ => 0

/-- Embedding of `queueEntrySchema.methods.callCustomer`. `calledNow` is the
clock read for `called_time`, `waitNow` the one read by `current_wait_time`. -/
def callCustomer (e : QueueEntry) (staffId : Option ObjectId) (calledNow waitNow : Int) :
    Outcome QueueEntry :=
  if e.status ≠ .waiting then
    { thrown := some "Customer can only be called when waiting", state := e }
  else
    let e1 := { e with status := .called }
    let e2 := { e1 with called_time := some calledNow }
    let e3 := { e2 with actual_wait_time := some (e2.current_wait_time waitNow) }
    let e4 := match staffId with
      | some s => { e3 with staff_id := some s }
      | none => e3
    { thrown := none, state := e4 }

/-- Embedding of `queueEntrySchema.methods.startService`. -/
def startService (e : QueueEntry) (staffId : Option ObjectId) (now : Int) :
    Outcome QueueEntry :=
  if e.status ≠ .called then
    { thrown := some "Service can only be started after customer is called", state := e }
  else
    let e1 := { e with status := .in_service, service_start_time := some now }
    let e2 := match staffId with
      | some s => { e1 with staff_id := some s }
      | none => e1
    { thrown := none, state := e2 }

/-- Truthiness of an optional `Number` argument: `undefined` and `0` are falsy. -/
def truthyNumber : Option Int → Bool
  | some d => d ≠ 0
  | none => false

/-- Embedding of `queueEntrySchema.methods.completeService`. `endNow` is the
clock read for `service_end_time`, `completionNow` the one for
`completion_time`. -/
def completeService (e : QueueEntry) (actualServiceTime : Option Int)
    (paymentInfo : Option PaymentInfo) (endNow completionNow : Int) : Outcome QueueEntry :=
  if e.status ≠ .in_service then
    { thrown := some "Service can only be completed when in service", state := e }
  else
    let e1 := { e with
      status := .completed
      service_end_time := some endNow
      completion_time := some completionNow }
    let e2 := { e1 with
      actual_service_time :=
        some (if truthyNumber actualServiceTime then actualServiceTime.getD 0
              else e1.calculateActualServiceTime) }
    let e3 := match paymentInfo with
      | some p => { e2 with payment_info := e2.payment_info.spread p }
      | none => e2
    { thrown := none, state := e3 }

/-- Embedding of `queueEntrySchema.methods.markNoShow`. `completionNow` is the
clock read for `completion_time`, `waitNow` the clock available to
`current_wait_time`. -/
def markNoShow (e : QueueEntry) (completionNow waitNow : Int) : Outcome QueueEntry :=
  if ¬ (e.status = .waiting ∨ e.status = .called) then
    { thrown := some "Can only mark as no-show when waiting or called", state := e }
  else
    let e1 := { e with status := .no_show }
    let e2 := { e1 with completion_time := some completionNow }
    let e3 := { e2 with actual_wait_time := some (e2.current_wait_time waitNow) }
    { thrown := none, state := e3 }

/-- Embedding of `queueEntrySchema.methods.cancelEntry`. The default parameter
`refundIssued = false` applies when the argument is omitted. -/
def cancelEntry (e : QueueEntry) (reason : Option String) (cancelledBy : Option ObjectId)
    (refundIssued : Option Bool) (completionNow cancelledNow : Int) : Outcome QueueEntry :=
  if e.status = .completed then
    { thrown := some "Cannot cancel completed entry", state := e }
  else
    { thrown := none
      state := { e with
        status := .cancelled
        completion_time := some completionNow
        cancellation_info := some
          { reason := reason
            cancelled_by := cancelledBy
            cancelled_at := cancelledNow
            refund_issued := refundIssued.getD false } } }

/-- Embedding of `queueEntrySchema.methods.skipCustomer`. An omitted reason is
interpolated as the text `undefined`. -/
def skipCustomer (e : QueueEntry) (reason : Option String) : Outcome QueueEntry :=
  if e.status ≠ .called then
    { thrown := some "Can only skip when customer is called", state := e }
  else
    let e1 := { e with status := .skipped }
    let old := match e1.notes.staff_notes with
      | some s => s
      | none => ""
    { thrown := none
      state := { e1 with
        notes := e1.notes.setStaffNotes (old ++ "\nSkipped: " ++ reason.getD "undefined") } }

end QueueEntry

/-! ## routes/queue.js -/

/-- One session: a queue document and the `QueueEntry` documents whose
`queue_id` refers to it, in natural (insertion) order. -/
structure Session where
  queue : Queue
  entries : List QueueEntry
  deriving DecidableEq, Repr

/-- Number of entries whose status is waiting, called or in_service. -/
def countActive (entries : List QueueEntry) : Int :=
  ((entries.filter QueueEntry.is_active).length : Int)

/-- The keys of the object `config/database.js` exports (lines 30-43): the
models are exported together under the key `models`, not under their own
names. -/
def databaseExports : List String := ["mongoose", "initializeDatabase", "models"]

/-- The model names that line 3 of `routes/queue.js` destructures from
`require('../config/database')`, each with whether it is bound to its model. A
name that is not bound is `undefined`, and a call on it throws a TypeError. -/
structure Imports where
  Queue : Bool
  QueueEntry : Bool
  Customer : Bool
  Service : Bool
  deriving DecidableEq, Repr

/-- The bindings as the source has them: a destructured name is bound only when
it is a key of the exported object. -/
def routeImports : Imports :=
  { Queue := databaseExports.contains "Queue"
    QueueEntry := databaseExports.contains "QueueEntry"
    Customer := databaseExports.contains "Customer"
    Service := databaseExports.contains "Service" }

/-- The bindings the handlers are written for: every name bound to the model of
that name in `models/`. -/
def modelsBound : Imports :=
  { Queue := true, QueueEntry := true, Customer := true, Service := true }

/-- Order of MongoDB on an optional number or date, ascending: a missing value
sorts before every present one. -/
def optLt : Option Int → Option Int → Bool
  | none, some _ => true
  | some a, some b => a < b
  | _, none => false

/-- The document `findOne(...).sort(...)` returns: the first document of the
collection in sort order, where `before a b` says that `a` sorts strictly before
`b`; documents that compare equal keep their natural order. -/
def firstBy {α : Type} (before : α → α → Bool) : List α → Option α
  | [] => none
  | x :: xs =>
    match firstBy before xs with
    | none => some x
    | some y => if before y x then some y else some x

/-- The path `queue_number` of an entry: the schema of `models/QueueEntry.js`
(lines 3-218) does not declare it, so it is never stored and reads
`undefined`. -/
def QueueEntry.queue_number (_e : QueueEntry) : Option Int := none

/-- Sort order of the last-entry query, `{ queue_number: -1 }`. -/
def queueNumberBefore (a b : QueueEntry) : Bool :=
  optLt b.queue_number a.queue_number

/-- A JavaScript number as the numbering of the add handler computes it. -/
inductive JsNumber where
  | value (n : Int)
  | NaN
  deriving DecidableEq, Repr

/-- The sum `x + 1` of JavaScript for a number or `undefined`: `undefined + 1`
is `NaN`. -/
def plusOne : Option Int → JsNumber
  | some n => .value (n + 1)
  | none => .NaN

/-- Embedding of lines 148-152 of the add handler, `Get next queue number`:
`lastEntry ? lastEntry.queue_number + 1 : 1`, with `lastEntry` the first entry
of the session under `{ queue_number: -1 }`. -/
def nextQueueNumber (entries : List QueueEntry) : JsNumber :=
  match firstBy queueNumberBefore entries with
  | some lastEntry => plusOne lastEntry.queue_number
  | none => .value 1

/-- Lexicographic order on code points. -/
def lexLt : List Nat → List Nat → Bool
  | [], [] => false
  | [], _ :: _ => true
  | _ :: _, [] => false
  | x :: xs, y :: ys => decide (x < y) || (decide (x = y) && lexLt xs ys)

/-- Order of MongoDB on strings under the default (binary) collation, as the
lexicographic order of the code points; the priority strings are ASCII. -/
def strLt (a b : String) : Bool :=
  lexLt (a.toList.map Char.toNat) (b.toList.map Char.toNat)

/-- Sort order of call-next, `{ priority: -1, joined_at: 1 }`: the stored
priority strings in descending string order, then `joined_at` ascending. -/
def callNextBefore (a b : QueueEntry) : Bool :=
  strLt b.priority.value a.priority.value ||
    (!strLt a.priority.value b.priority.value && optLt a.joined_at b.joined_at)

/-- The entry call-next selects: `QueueEntry.findOne({ queue_id, status:
'waiting' }).sort({ priority: -1, joined_at: 1 })`. -/
def callNextSelect (entries : List QueueEntry) : Option QueueEntry :=
  firstBy callNextBefore (entries.filter (fun e => e.status = .waiting))

/-- Truthiness of an optional string: `undefined` and the empty string are
falsy. -/
def truthyString : Option String → Bool
  | some s => s ≠ ""
  | none => false

/-- Writes a saved entry back: replaces the first document with the same id. -/
def saveEntry (e : QueueEntry) : List QueueEntry → List QueueEntry
  | [] => []
  | x :: xs => if x.id = e.id then e :: xs else x :: saveEntry e xs

/-- Body of a request to `POST /:franchiseId/add` that passes the validators,
with what the lookups of the handler find. -/
structure AddRequest where
  customer_id : Option ObjectId := none
  service_id : ObjectId
  customer_info : Bool := false
  priority : Option Priority := none
  entry_type : Option String := none
  notes : Option String := none
  /-- Whether `Service.findOne` finds the service in the franchise. -/
  serviceFound : Bool := true
  deriving DecidableEq, Repr

/-- Embedding of the handler of `POST /:franchiseId/add` (lines 98-172), on the
session of the day. Each database call is on a destructured model name and
throws when the name is not bound. Line 155 calls `queue.getEstimatedWaitTime()`,
a method `models/Queue.js` (lines 140-214) does not define: the call throws, so
the handler never reaches `QueueEntry.create` (line 158) nor
`queue.updateCurrentSize()` (line 172), and the session is left as it was. -/
def addHandler (im : Imports) (s : Session) (r : AddRequest) : Outcome Session :=
  if ¬ im.Queue then
    { thrown := some "TypeError: Cannot read properties of undefined (reading findOne)"
      state := s }
  else if s.queue.current_size ≥ s.queue.max_capacity then
    { thrown := some "Queue is at maximum capacity", state := s }
  else if ¬ im.Service then
    { thrown := some "TypeError: Cannot read properties of undefined (reading findOne)"
      state := s }
  else if ¬ r.serviceFound then
    { thrown := some "Service not found", state := s }
  else if r.customer_id.isNone ∧ r.customer_info ∧ ¬ im.Customer then
    { thrown := some "TypeError: Cannot read properties of undefined (reading create)"
      state := s }
  else if r.customer_id.isNone ∧ ¬ r.customer_info then
    { thrown := some "Customer ID or customer info is required", state := s }
  else if ¬ im.QueueEntry then
    { thrown := some "TypeError: Cannot read properties of undefined (reading findOne)"
      state := s }
  else
    { thrown := some "TypeError: queue.getEstimatedWaitTime is not a function"
      state := s }

/-- Body of a request to `PUT /:franchiseId/entry/:entryId`, with the id of the
authenticated user. -/
structure UpdateRequest where
  entryId : ObjectId
  status : EntryStatus
  staff_id : Option ObjectId := none
  notes : Option String := none
  userId : ObjectId
  deriving DecidableEq, Repr

/-- The `switch (status)` of the update-status handler (lines 285-307), run on
the loaded entry, with the `save()` that ends each branch: the outcome holds the
entry as the collection stores it afterwards. `now1` and `now2` are the clock
readings in the order the chosen branch takes them. In the branches that assign
the status directly, `completed_at` is not a path of the schema and is not
stored, and notes of the request, a string assigned to the nested path `notes`,
make `save()` reject, so that nothing is stored. -/
def updateEntry (entry : QueueEntry) (r : UpdateRequest) (now1 now2 : Int) :
    Outcome QueueEntry :=
  let staff : Option ObjectId := some (r.staff_id.getD r.userId)
  match r.status with
  | .called => entry.callCustomer staff now1 now2
  | .in_service => entry.startService staff now1
  | .completed => entry.completeService none none now1 now2
  | .no_show | .cancelled =>
    if truthyString r.notes then
      { thrown := some "ValidationError: notes: Cast to Object failed", state := entry }
    else
      { thrown := none, state := { entry with status := r.status } }
  | _ =>
    if truthyString r.notes then
      { thrown := some "ValidationError: notes: Cast to Object failed", state := entry }
    else
      { thrown := none, state := { entry with status := r.status } }

/-- Embedding of the handler of `PUT /:franchiseId/entry/:entryId` (lines
262-327). The body validator accepts every status but `skipped`. After the
switch has saved the entry, line 311 calls `queue.updateCurrentSize()`, a method
`models/Queue.js` does not define: the call throws, and the queue document is
left as it was. -/
def updateHandler (im : Imports) (s : Session) (r : UpdateRequest) (now1 now2 : Int) :
    Outcome Session :=
  if r.status = .skipped then
    { thrown := some "Validation failed", state := s }
  else if ¬ im.QueueEntry then
    { thrown := some "TypeError: Cannot read properties of undefined (reading findById)"
      state := s }
  else
    match s.entries.find? (fun e => e.id = r.entryId) with
    | none => { thrown := some "Queue entry not found", state := s }
    | some entry =>
      let o := updateEntry entry r now1 now2
      match o.thrown with
      | some msg => { thrown := some msg, state := s }
      | none =>
        let saved : Session := { s with entries := saveEntry o.state s.entries }
        if ¬ im.Queue then
          { thrown := some "TypeError: Cannot read properties of undefined (reading findById)"
            state := saved }
        else
          { thrown := some "TypeError: queue.updateCurrentSize is not a function"
            state := saved }

/-- Embedding of the handler of `POST /:franchiseId/call-next` (lines 203-251):
the session it leaves and the entry of its response (`none` for `entry: null`
and when it throws). -/
def callNextHandler (im : Imports) (s : Session) (staff_id : Option ObjectId)
    (userId : ObjectId) (calledNow waitNow : Int) : Outcome Session × Option QueueEntry :=
  if ¬ im.Queue then
    ({ thrown := some "TypeError: Cannot read properties of undefined (reading findOne)"
       state := s }, none)
  else if ¬ im.QueueEntry then
    ({ thrown := some "TypeError: Cannot read properties of undefined (reading findOne)"
       state := s }, none)
  else
    match callNextSelect s.entries with
    | none => ({ thrown := none, state := s }, none)
    | some nextEntry =>
      let o := nextEntry.callCustomer (some (staff_id.getD userId)) calledNow waitNow
      match o.thrown with
      | some msg => ({ thrown := some msg, state := s }, none)
      | none =>
        ({ thrown := none, state := { s with entries := saveEntry o.state s.entries } },
          some o.state)

/-! ## models/QueueEntry.js: audited updates -/

namespace QueueEntry

/-- Embedding of `queueEntrySchema.methods.updatePosition`. An omitted or empty
reason is recorded as `Position update`. -/
def updatePosition (e : QueueEntry) (newPosition : Int) (reason : Option String)
    (now : Int) : Outcome QueueEntry :=
  let oldPosition := e.position
  let e1 := { e with position := some newPosition }
  { thrown := none
    state := { e1 with
      position_changes := e1.position_changes ++
        [{ from_position := oldPosition
           to_position := some newPosition
           timestamp := now
           reason := if truthyString reason then reason.getD "" else "Position update" }] } }

/-- Embedding of `queueEntrySchema.methods.updateEstimatedWaitTime`. -/
def updateEstimatedWaitTime (e : QueueEntry) (newEstimate : Int) (now : Int) :
    Outcome QueueEntry :=
  let e1 := { e with estimated_wait_time := newEstimate }
  { thrown := none
    state := { e1 with
      estimated_times := e1.estimated_times ++
        [{ estimated_wait := newEstimate, timestamp := now }] } }

end QueueEntry

/-- One call of a method of a queue entry, with its arguments and the clock
readings it consumes. -/
inductive EntryOp where
  | callCustomer (staffId : Option ObjectId) (calledNow waitNow : Int)
  | startService (staffId : Option ObjectId) (now : Int)
  | completeService (actualServiceTime : Option Int) (paymentInfo : Option PaymentInfo)
      (endNow completionNow : Int)
  | markNoShow (completionNow waitNow : Int)
  | cancelEntry (reason : Option String) (cancelledBy : Option ObjectId)
      (refundIssued : Option Bool) (completionNow cancelledNow : Int)
  | skipCustomer (reason : Option String)
  | updatePosition (newPosition : Int) (reason : Option String) (now : Int)
  | updateEstimatedWaitTime (newEstimate : Int) (now : Int)
  deriving DecidableEq, Repr

/-- Runs one method call on an entry. -/
def EntryOp.run (op : EntryOp) (e : QueueEntry) : Outcome QueueEntry :=
  match op with
  | .callCustomer st t1 t2 => e.callCustomer st t1 t2
  | .startService st t => e.startService st t
  | .completeService d p t1 t2 => e.completeService d p t1 t2
  | .markNoShow t1 t2 => e.markNoShow t1 t2
  | .cancelEntry r c f t1 t2 => e.cancelEntry r c f t1 t2
  | .skipCustomer r => e.skipCustomer r
  | .updatePosition p r t => e.updatePosition p r t
  | .updateEstimatedWaitTime w t => e.updateEstimatedWaitTime w t

/-- Whether the call is a `callCustomer`. -/
def EntryOp.isCall : EntryOp → Bool
  | .callCustomer _ _ _ => true
  | _ => false

/-- Whether the call is a `callCustomer` that is given no staff id. -/
def EntryOp.isCallWithoutStaff : EntryOp → Bool
  | .callCustomer none _ _ => true
  | _ => false

/-- Runs a sequence of method calls that all succeed: `none` as soon as one of
them throws. -/
def runSuccessful (e : QueueEntry) : List EntryOp → Option QueueEntry
  | [] => some e
  | op :: rest =>
    match (op.run e).thrown with
    | some _ => none
    | none => runSuccessful (op.run e).state rest

/-! ## models/Queue.js: staff assignment -/

/-- Applies `f` to the slot `Array.prototype.find` returns: the first slot with
the given `staff_id`. -/
def updateFirstStaff (staffId : ObjectId) (f : StaffAssignment → StaffAssignment) :
    List StaffAssignment → List StaffAssignment
  | [] => []
  | x :: xs =>
    if x.staff_id = staffId then f x :: xs else x :: updateFirstStaff staffId f xs

namespace Queue

/-- Embedding of `queueSchema.methods.getAvailableStaff`. -/
def getAvailableStaff (q : Queue) : List StaffAssignment :=
  q.staff_assignments.filter fun staff => staff.is_available && staff.current_customer.isNone

/-- Embedding of `queueSchema.methods.assignStaffToCustomer`. -/
def assignStaffToCustomer (q : Queue) (staffId queueEntryId : ObjectId) : Outcome Queue :=
  match q.staff_assignments.find? (fun s => s.staff_id = staffId) with
  | some _ =>
    { thrown := none
      state := { q with
        staff_assignments := updateFirstStaff staffId
          (fun staff => { staff with
            current_customer := some queueEntryId, is_available := false })
          q.staff_assignments } }
  | none => { thrown := some "Staff member not found", state := q }

/-- Embedding of `queueSchema.methods.releaseStaff`. -/
def releaseStaff (q : Queue) (staffId : ObjectId) : Outcome Queue :=
  match q.staff_assignments.find? (fun s => s.staff_id = staffId) with
  | some _ =>
    { thrown := none
      state := { q with
        staff_assignments := updateFirstStaff staffId
          (fun staff => { staff with
            current_customer := none
            is_available := true
            customers_served_today := staff.customers_served_today + 1 })
          q.staff_assignments } }
  | none => { thrown := some "Staff member not found", state := q }

/-- The slot of a staff member: what `staff_assignments.find` returns. -/
def staffSlot (q : Queue) (staffId : ObjectId) : Option StaffAssignment :=
  q.staff_assignments.find? (fun s => s.staff_id = staffId)

end Queue

/-- One call of a staff method of a queue. -/
inductive StaffOp where
  | assignStaffToCustomer (staffId queueEntryId : ObjectId)
  | releaseStaff (staffId : ObjectId)
  deriving DecidableEq, Repr

/-- Runs one staff method call. -/
def StaffOp.run (op : StaffOp) (q : Queue) : Outcome Queue :=
  match op with
  | .assignStaffToCustomer st en => q.assignStaffToCustomer st en
  | .releaseStaff st => q.releaseStaff st

/-- Runs a sequence of staff method calls; a call that throws leaves the queue
as it was. -/
def runStaffOps (q : Queue) (ops : List StaffOp) : Queue :=
  ops.foldl (fun acc op => (op.run acc).state) q

/-! ## routes/queue.js: removal -/

/-- Embedding of the handler of `DELETE /:franchiseId/entry/:entryId` (lines
336-373). `completed_at` is not a path of the schema and is not stored; a reason
in the body, a string assigned to the nested path `notes`, makes `save()`
reject, so that nothing is stored. After a save, line 358 calls
`queue.updateCurrentSize()`, a method `models/Queue.js` does not define: the
call throws, and the queue document is left as it was. -/
def removeHandler (im : Imports) (s : Session) (entryId : ObjectId)
    (reason : Option String) : Outcome Session :=
  if ¬ im.QueueEntry then
    { thrown := some "TypeError: Cannot read properties of undefined (reading findById)"
      state := s }
  else
    match s.entries.find? (fun e => e.id = entryId) with
    | none => { thrown := some "Queue entry not found", state := s }
    | some entry =>
      if truthyString reason then
        { thrown := some "ValidationError: notes: Cast to Object failed", state := s }
      else
        let saved : Session :=
          { s with entries := saveEntry { entry with status := .cancelled } s.entries }
        if ¬ im.Queue then
          { thrown := some "TypeError: Cannot read properties of undefined (reading findById)"
            state := saved }
        else
          { thrown := some "TypeError: queue.updateCurrentSize is not a function"
            state := saved }

/-- The status of the entry with the given id, as the session stores it. -/
def statusOf (s : Session) (entryId : ObjectId) : Option EntryStatus :=
  (s.entries.find? (fun e => e.id = entryId)).map (fun e => e.status)

/-! ## models/QueueEntry.js: overdue entries -/

/-- Embedding of the virtual `is_overdue`, read at clock value `now`. -/
def QueueEntry.is_overdue (e : QueueEntry) (now : Int) : Bool :=
  if e.status ≠ .waiting then false
  else
    let currentWait := e.current_wait_time now
    decide (currentWait > e.estimated_wait_time + 15)

/-! ## Properties of documents -/

/-- The binding property kept along successful calls: an entry that waits has
no staff member, an entry that is called or in service has one. -/
def staffBoundWhenCalled (e : QueueEntry) : Prop :=
  (e.status = .waiting → e.staff_id = none) ∧
  (e.status = .called ∨ e.status = .in_service → e.staff_id.isSome = true)

/-- A slot is consistent when `is_available` is false exactly when
`current_customer` is non-null. -/
def slotConsistent (slot : StaffAssignment) : Prop :=
  slot.is_available = false ↔ slot.current_customer ≠ none

/-! ## Concrete documents -/

/-- A queue that is full: two places, both taken. -/
def fullQueue : Queue := { max_capacity := 2, current_size := 2 }

/-- A waiting entry of priority high, checked in first. -/
def highEntry : QueueEntry :=
  { id := 1, queue_id := 0, customer_id := 40, service_id := 9, priority := .high,
    check_in_time := 1000, joined_at := some 1000 }

/-- A waiting entry of priority normal, checked in after `highEntry`. -/
def normalEntry : QueueEntry :=
  { id := 2, queue_id := 0, customer_id := 41, service_id := 9, priority := .normal,
    check_in_time := 2000, joined_at := some 2000 }

/-- Ten waiting entries of priority normal, checked in one second apart. -/
def tenNormal : List QueueEntry :=
  (List.range 10).map fun i =>
    { id := i + 1, queue_id := 0, customer_id := 40 + i, service_id := 9,
      priority := .normal, check_in_time := 1000 * ((i : Int) + 1),
      joined_at := some (1000 * ((i : Int) + 1)) }

/-- A waiting entry of priority urgent, checked in after the ten of `tenNormal`. -/
def urgentEntry : QueueEntry :=
  { id := 11, queue_id := 0, customer_id := 50, service_id := 9, priority := .urgent,
    check_in_time := 11000, joined_at := some 11000 }

/-- A waiting entry that already carries a staff member. -/
def boundWaiting : QueueEntry :=
  { id := 3, queue_id := 0, customer_id := 42, service_id := 9, staff_id := some 7,
    check_in_time := 0 }

/-- A called entry, bound to staff member 7 one minute after check-in. -/
def calledEntry : QueueEntry :=
  { id := 4, queue_id := 0, customer_id := 43, service_id := 9, staff_id := some 7,
    status := .called, check_in_time := 0, called_time := some 60000,
    actual_wait_time := some 1 }

/-- An entry in service since instant 0. -/
def inServiceEntry : QueueEntry :=
  { id := 5, queue_id := 0, customer_id := 44, service_id := 9, staff_id := some 7,
    status := .in_service, check_in_time := 0, called_time := some 0,
    actual_wait_time := some 0, service_start_time := some 0 }

/-- An entry waiting since instant 0, never called. -/
def waitingSinceZero : QueueEntry :=
  { id := 6, queue_id := 0, customer_id := 45, service_id := 9, check_in_time := 0 }

/-- An entry marked as no-show. -/
def noShowEntry : QueueEntry :=
  { id := 7, queue_id := 0, customer_id := 46, service_id := 9, status := .no_show,
    check_in_time := 0, completion_time := some 600000, actual_wait_time := some 0 }

/-- A call by staff member 7, the start of the service and its completion. -/
def servedOps : List EntryOp :=
  [ .callCustomer (some 7) 60000 60000,
    .startService none 120000,
    .completeService none none 720000 720000 ]

/-- The entry waiting since instant 0, called by staff member 7 after a minute. -/
def calledBySeven : QueueEntry :=
  (waitingSinceZero.callCustomer (some 7) 60000 60000).state

/-- A session holding one entry that waits since instant 0. -/
def waitingSession : Session :=
  { queue := { current_size := 1 }, entries := [waitingSinceZero] }

/-- A queue with two free staff slots, for staff members 7 and 8. -/
def rosterQueue : Queue :=
  { staff_assignments := [{ staff_id := 7 }, { staff_id := 8 }] }

/-- An entry whose service is completed. -/
def completedEntry : QueueEntry :=
  { id := 8, queue_id := 0, customer_id := 47, service_id := 9, staff_id := some 7,
    status := .completed, check_in_time := 0, called_time := some 60000,
    actual_wait_time := some 1, service_start_time := some 120000,
    service_end_time := some 720000, completion_time := some 720000,
    actual_service_time := some 10 }

/-- A session holding the completed entry only. -/
def completedSession : Session :=
  { queue := {}, entries := [completedEntry] }

/-- The session of the end-to-end scenario: two places, no entry, and staff
member 7 on the roster. -/
def scenarioStart : Session :=
  { queue := { max_capacity := 2, staff_assignments := [{ staff_id := 7 }] }, entries := [] }

/-- The admission request of customer A, priority normal. -/
def requestA : AddRequest :=
  { service_id := 9, customer_id := some 40, priority := some .normal }

/-! ## Capacity ledger -/

/-- C1: `Queue.addCustomer` succeeds exactly when `current_size < max_capacity`;
on success `current_size` grows by one and the counters are kept; on failure it
throws and leaves the whole document, every counter included, as it was. -/
theorem addCustomer_succeeds_iff_below_capacity (q : Queue) (now : Int) :
    ((q.addCustomer now).thrown = none ↔ q.current_size < q.max_capacity) ∧
    (q.current_size < q.max_capacity →
      (q.addCustomer now).state.current_size = q.current_size + 1 ∧
      (q.addCustomer now).state.max_capacity = q.max_capacity ∧
      (q.addCustomer now).state.total_served = q.total_served ∧
      (q.addCustomer now).state.total_no_shows = q.total_no_shows ∧
      (q.addCustomer now).state.total_cancelled = q.total_cancelled) ∧
    (q.current_size ≥ q.max_capacity →
      (q.addCustomer now).thrown = some "Queue is at maximum capacity" ∧
      (q.addCustomer now).state = q) := by
  unfold Queue.addCustomer
  by_cases h : q.current_size < q.max_capacity
  · simp [h]
  · simp [h, not_lt.mp h]

/-- C2: the bound `0 <= current_size <= max_capacity` is kept by each of
addCustomer, removeCustomer, serveCustomer, markNoShow, cancelCustomer and
updateWaitTimes, whether the operation returns or throws. -/
theorem withinCapacity_preserved (op : QueueOp) (q : Queue) (now : Int)
    (h : q.withinCapacity) : (op.run q now).state.withinCapacity := by
  obtain ⟨h0, h1⟩ := h
  cases op <;>
    simp only [QueueOp.run, Queue.addCustomer, Queue.removeCustomer, Queue.serveCustomer,
      Queue.markNoShow, Queue.cancelCustomer, Queue.updateWaitTimes, Queue.withinCapacity] <;>
    (try split) <;> (constructor <;> first | omega | (dsimp only; omega))

/-- Witness of C2: a full queue stays within its capacity when one more customer
is added (the call throws). -/
theorem withinCapacity_preserved_witness :
    fullQueue.withinCapacity ∧
      (QueueOp.addCustomer.run fullQueue 1000).state.withinCapacity :=
  ⟨by decide, withinCapacity_preserved QueueOp.addCustomer fullQueue 1000 (by decide)⟩

/-! ## Session occupancy -/

/-- C3, the code at the failing input: a session holds one waiting entry and
has `current_size` 1; a request sets the entry to cancelled. With the models
bound, the switch saves the entry as cancelled and the handler then throws at
`queue.updateCurrentSize()`: `current_size` stays 1 while no entry is waiting,
called or in service. With the bindings of the source the handler throws before
it loads the entry and nothing changes. -/
theorem occupancy_not_updated_after_status_change :
    waitingSession.queue.current_size = countActive waitingSession.entries ∧
    (updateHandler modelsBound waitingSession
      { entryId := 6, status := .cancelled, userId := 5 } 600000 600000).thrown
      = some "TypeError: queue.updateCurrentSize is not a function" ∧
    statusOf (updateHandler modelsBound waitingSession
      { entryId := 6, status := .cancelled, userId := 5 } 600000 600000).state 6
      = some .cancelled ∧
    (updateHandler modelsBound waitingSession
      { entryId := 6, status := .cancelled, userId := 5 } 600000 600000).state.queue.current_size
      = 1 ∧
    countActive (updateHandler modelsBound waitingSession
      { entryId := 6, status := .cancelled, userId := 5 } 600000 600000).state.entries = 0 ∧
    (updateHandler routeImports waitingSession
      { entryId := 6, status := .cancelled, userId := 5 } 600000 600000).thrown
      = some "TypeError: Cannot read properties of undefined (reading findById)" ∧
    (updateHandler routeImports waitingSession
      { entryId := 6, status := .cancelled, userId := 5 } 600000 600000).state
      = waitingSession := by
  decide

/-! ## Call-next selection -/

/-- C4, the code at the failing input: with a waiting entry of priority high
and a later waiting entry of priority normal, call-next selects the normal one,
because the priority strings are compared as strings. -/
theorem callNext_selects_normal_before_high :
    highEntry.status = .waiting ∧ highEntry.priority = .high ∧
    normalEntry.status = .waiting ∧ normalEntry.priority = .normal ∧
    callNextSelect [highEntry, normalEntry] = some normalEntry := by
  decide

/-- The document `firstBy` returns is one of the collection. -/
theorem firstBy_mem {α : Type} (before : α → α → Bool) :
    ∀ (l : List α) (y : α), firstBy before l = some y → y ∈ l := by
  intro l
  induction l with
  | nil => intro y h; simp [firstBy] at h
  | cons x xs ih =>
    intro y h
    simp only [firstBy] at h
    cases hxs : firstBy before xs with
    | none =>
      simp only [hxs, Option.some.injEq] at h
      exact h ▸ List.mem_cons_self x xs
    | some z =>
      simp only [hxs] at h
      by_cases hb : before z x = true
      · rw [if_pos hb] at h
        simp only [Option.some.injEq] at h
        exact h ▸ List.mem_cons_of_mem x (ih z hxs)
      · rw [if_neg hb] at h
        simp only [Option.some.injEq] at h
        exact h ▸ List.mem_cons_self x xs

/-- A document that sorts strictly before every document stored ahead of it,
and that no document stored after it sorts before, is the one `firstBy`
returns. -/
theorem firstBy_of_dominant {α : Type} (before : α → α → Bool) (u : α) (later : List α)
    (hlater : ∀ x ∈ later, before x u = false) :
    ∀ earlier : List α, (∀ x ∈ earlier, before u x = true) →
      firstBy before (earlier ++ u :: later) = some u := by
  intro earlier
  induction earlier with
  | nil =>
    intro _
    simp only [List.nil_append, firstBy]
    cases hl : firstBy before later with
    | none => rfl
    | some y =>
      have hy := hlater y (firstBy_mem before later y hl)
      simp [hy]
  | cons x xs ih =>
    intro h
    have hx : before u x = true := h x (List.mem_cons_self x xs)
    have hxs := ih (fun y hy => h y (List.mem_cons_of_mem x hy))
    simp [firstBy, hxs, hx]

/-- The urgent priority string sorts strictly before every other one under
`{ priority: -1 }`, whatever the `joined_at` values, and none sorts before
it. -/
theorem callNextBefore_urgent (u x : QueueEntry) (hu : u.priority = .urgent)
    (hx : x.priority ≠ .urgent) :
    callNextBefore u x = true ∧ callNextBefore x u = false := by
  have h1 : strLt "low" "urgent" = true := by decide
  have h2 : strLt "normal" "urgent" = true := by decide
  have h3 : strLt "high" "urgent" = true := by decide
  have h4 : strLt "urgent" "low" = false := by decide
  have h5 : strLt "urgent" "normal" = false := by decide
  have h6 : strLt "urgent" "high" = false := by decide
  cases hp : x.priority with
  | low => simp [callNextBefore, hu, hp, Priority.value, h1, h4]
  | normal => simp [callNextBefore, hu, hp, Priority.value, h2, h5]
  | high => simp [callNextBefore, hu, hp, Priority.value, h3, h6]
  | urgent => exact absurd hp hx

/-- C5: when an urgent entry waits in a session whose other waiting entries are
not urgent (in the claim: ten entries of priority normal, admitted before it),
the query of call-next selects the urgent entry, wherever it stands in the
collection and whatever the `joined_at` values are. -/
theorem callNext_selects_the_urgent_entry (earlier later : List QueueEntry)
    (u : QueueEntry)
    (hothers : ∀ e ∈ earlier ++ later, e.status = .waiting → e.priority ≠ .urgent)
    (hu : u.status = .waiting ∧ u.priority = .urgent) :
    callNextSelect (earlier ++ u :: later) = some u := by
  unfold callNextSelect
  have hfilter : (earlier ++ u :: later).filter (fun e => e.status = .waiting)
      = earlier.filter (fun e => e.status = .waiting)
        ++ u :: later.filter (fun e => e.status = .waiting) := by
    simp [List.filter_append, List.filter_cons, hu.1]
  rw [hfilter]
  apply firstBy_of_dominant
  · intro x hx
    obtain ⟨hmem, hw⟩ := List.mem_filter.mp hx
    exact (callNextBefore_urgent u x hu.2
      (hothers x (List.mem_append_right earlier hmem) (by simpa using hw))).2
  · intro x hx
    obtain ⟨hmem, hw⟩ := List.mem_filter.mp hx
    exact (callNextBefore_urgent u x hu.2
      (hothers x (List.mem_append_left later hmem) (by simpa using hw))).1

/-- Witness of C5: ten entries of priority normal, then an urgent one; and the
urgent entry between the normal ones. -/
theorem callNext_selects_the_urgent_entry_witness :
    tenNormal.length = 10 ∧
    callNextSelect (tenNormal ++ urgentEntry :: []) = some urgentEntry ∧
    callNextSelect (tenNormal.take 4 ++ urgentEntry :: tenNormal.drop 4)
      = some urgentEntry :=
  ⟨by decide,
    callNext_selects_the_urgent_entry tenNormal [] urgentEntry (by decide) (by decide),
    by decide⟩

/-! ## Entry status machine -/

/-- The whole minutes of `minutesBetween` are the floor of the quotient by
60000. -/
theorem minutesBetween_eq_floor (a b : Int) :
    minutesBetween a b = ⌊((b - a : Int) : ℚ) / 60000⌋ := by
  unfold minutesBetween
  rw [Int.fdiv_eq_ediv _ (by norm_num)]
  have h := Rat.floor_intCast_div_natCast (b - a) 60000
  norm_num at h ⊢
  exact h.symm

/-- C6, counterexample: called without a staff id, a waiting entry that already
carries staff member 7 is called and keeps 7; `staff_id` does not become the
(absent) argument. -/
theorem callCustomer_without_staff_keeps_binding :
    boundWaiting.status = .waiting ∧
    (boundWaiting.callCustomer none 1000 1000).thrown = none ∧
    (boundWaiting.callCustomer none 1000 1000).state.staff_id = some 7 := by
  decide

/-- C6, amended: `callCustomer(staffId)` succeeds exactly when the status is
waiting; on success the status becomes called, `called_time` is stamped,
`staff_id` becomes `staffId` when one is supplied and is otherwise unchanged,
and `actual_wait_time` is the floor of `(now - check_in_time) / 60000`; when it
throws the entry is left as it was. -/
theorem callCustomer_spec (e : QueueEntry) (staffId : Option ObjectId)
    (calledNow waitNow : Int) :
    ((e.callCustomer staffId calledNow waitNow).thrown = none ↔ e.status = .waiting) ∧
    (e.status = .waiting →
      (e.callCustomer staffId calledNow waitNow).state.status = .called ∧
      (e.callCustomer staffId calledNow waitNow).state.called_time = some calledNow ∧
      (∀ s, staffId = some s →
        (e.callCustomer staffId calledNow waitNow).state.staff_id = some s) ∧
      (staffId = none →
        (e.callCustomer staffId calledNow waitNow).state.staff_id = e.staff_id) ∧
      (e.callCustomer staffId calledNow waitNow).state.actual_wait_time
        = some ⌊((waitNow - e.check_in_time : Int) : ℚ) / 60000⌋) ∧
    (e.status ≠ .waiting → (e.callCustomer staffId calledNow waitNow).state = e) := by
  rw [← minutesBetween_eq_floor]
  by_cases h : e.status = .waiting
  · cases staffId <;> simp [QueueEntry.callCustomer, QueueEntry.current_wait_time, h]
  · simp [QueueEntry.callCustomer, h]

/-- C7: `startService(staffId)` succeeds exactly when the status is called; on
success the status becomes in_service, `service_start_time` is stamped, and
`staff_id` becomes `staffId` when one is supplied and is otherwise unchanged;
when it throws the entry is left as it was. -/
theorem startService_spec (e : QueueEntry) (staffId : Option ObjectId) (now : Int) :
    ((e.startService staffId now).thrown = none ↔ e.status = .called) ∧
    (e.status = .called →
      (e.startService staffId now).state.status = .in_service ∧
      (e.startService staffId now).state.service_start_time = some now ∧
      (∀ s, staffId = some s → (e.startService staffId now).state.staff_id = some s) ∧
      (staffId = none → (e.startService staffId now).state.staff_id = e.staff_id)) ∧
    (e.status ≠ .called → (e.startService staffId now).state = e) := by
  by_cases h : e.status = .called
  · cases staffId <;> simp [QueueEntry.startService, h]
  · simp [QueueEntry.startService, h]

/-- C8, counterexample: completing with a supplied duration of 0 an entry that
has been in service for ten minutes records 10, not 0. -/
theorem completeService_zero_duration_is_recomputed :
    inServiceEntry.status = .in_service ∧
    (inServiceEntry.completeService (some 0) none 600000 600000).thrown = none ∧
    (inServiceEntry.completeService (some 0) none 600000 600000).state.actual_service_time
      = some 10 := by
  decide

/-- C8, amended: `completeService(duration)` succeeds exactly when the status
is in_service; on success the status becomes completed, `service_end_time` and
`completion_time` are stamped, and `actual_service_time` is the supplied
duration for every supplied duration other than 0, and, when none or 0 is
supplied, the floor of `(service_end_time - service_start_time) / 60000` (0 when
`service_start_time` is not set). -/
theorem completeService_spec (e : QueueEntry) (duration : Option Int)
    (paymentInfo : Option PaymentInfo) (endNow completionNow : Int) :
    ((e.completeService duration paymentInfo endNow completionNow).thrown = none
      ↔ e.status = .in_service) ∧
    (e.status = .in_service →
      (e.completeService duration paymentInfo endNow completionNow).state.status
        = .completed ∧
      (e.completeService duration paymentInfo endNow completionNow).state.service_end_time
        = some endNow ∧
      (e.completeService duration paymentInfo endNow completionNow).state.completion_time
        = some completionNow ∧
      (∀ d, duration = some d → d ≠ 0 →
        (e.completeService duration paymentInfo endNow completionNow).state.actual_service_time
          = some d) ∧
      (duration = none ∨ duration = some 0 →
        (∀ start, e.service_start_time = some start →
          (e.completeService duration paymentInfo endNow completionNow).state.actual_service_time
            = some ⌊((endNow - start : Int) : ℚ) / 60000⌋) ∧
        (e.service_start_time = none →
          (e.completeService duration paymentInfo endNow completionNow).state.actual_service_time
            = some 0))) := by
  by_cases h : e.status = .in_service
  · refine ⟨by cases paymentInfo <;> simp [QueueEntry.completeService, h], fun _ => ?_⟩
    refine ⟨?_, ?_, ?_, ?_, ?_⟩
    · cases paymentInfo <;> simp [QueueEntry.completeService, h]
    · cases paymentInfo <;> simp [QueueEntry.completeService, h]
    · cases paymentInfo <;> simp [QueueEntry.completeService, h]
    · intro d hd hne
      cases paymentInfo <;>
        simp [QueueEntry.completeService, h, hd, QueueEntry.truthyNumber, hne]
    · intro hd
      refine ⟨fun start hs => ?_, fun hs => ?_⟩
      · rw [← minutesBetween_eq_floor]
        rcases hd with hd | hd <;> cases paymentInfo <;>
          simp [QueueEntry.completeService, h, hd, QueueEntry.truthyNumber,
            QueueEntry.calculateActualServiceTime, hs]
      · rcases hd with hd | hd <;> cases paymentInfo <;>
          simp [QueueEntry.completeService, h, hd, QueueEntry.truthyNumber,
            QueueEntry.calculateActualServiceTime, hs]
  · simp [QueueEntry.completeService, h]

/-- C9, the code at the failing input: an entry that has waited ten minutes and
was never called is marked as no-show with `actual_wait_time` 0, because the
status is set to no_show before `current_wait_time` is read. -/
theorem markNoShow_of_waiting_records_zero :
    waitingSinceZero.status = .waiting ∧ waitingSinceZero.actual_wait_time = none ∧
    minutesBetween waitingSinceZero.check_in_time 600000 = 10 ∧
    (waitingSinceZero.markNoShow 600000 600000).thrown = none ∧
    (waitingSinceZero.markNoShow 600000 600000).state.status = .no_show ∧
    (waitingSinceZero.markNoShow 600000 600000).state.actual_wait_time = some 0 := by
  decide

/-- C10, counterexample: `cancelEntry` on an entry whose status is no_show
succeeds and moves it to cancelled. -/
theorem cancelEntry_leaves_no_show :
    noShowEntry.status = .no_show ∧
    (noShowEntry.cancelEntry (some "left") none none 700000 700000).thrown = none ∧
    (noShowEntry.cancelEntry (some "left") none none 700000 700000).state.status
      = .cancelled := by
  decide

/-- C10, amended: on an entry whose status is completed, cancelled, no_show or
skipped, each of callCustomer, startService, completeService, markNoShow and
skipCustomer throws and leaves the entry as it was; cancelEntry throws, leaving
the entry as it was, only when the status is completed, and on a cancelled,
no_show or skipped entry it succeeds and sets the status to cancelled. -/
theorem terminal_entry_transitions (e : QueueEntry)
    (h : e.status = .completed ∨ e.status = .cancelled ∨ e.status = .no_show ∨
      e.status = .skipped)
    (staffId : Option ObjectId) (duration : Option Int) (paymentInfo : Option PaymentInfo)
    (reason : Option String) (cancelledBy : Option ObjectId) (refundIssued : Option Bool)
    (t1 t2 : Int) :
    ((e.callCustomer staffId t1 t2).thrown ≠ none ∧
      (e.callCustomer staffId t1 t2).state = e) ∧
    ((e.startService staffId t1).thrown ≠ none ∧ (e.startService staffId t1).state = e) ∧
    ((e.completeService duration paymentInfo t1 t2).thrown ≠ none ∧
      (e.completeService duration paymentInfo t1 t2).state = e) ∧
    ((e.markNoShow t1 t2).thrown ≠ none ∧ (e.markNoShow t1 t2).state = e) ∧
    ((e.skipCustomer reason).thrown ≠ none ∧ (e.skipCustomer reason).state = e) ∧
    (e.status = .completed →
      (e.cancelEntry reason cancelledBy refundIssued t1 t2).thrown ≠ none ∧
      (e.cancelEntry reason cancelledBy refundIssued t1 t2).state = e) ∧
    (e.status ≠ .completed →
      (e.cancelEntry reason cancelledBy refundIssued t1 t2).thrown = none ∧
      (e.cancelEntry reason cancelledBy refundIssued t1 t2).state.status = .cancelled) := by
  rcases h with h | h | h | h <;>
    simp [QueueEntry.callCustomer, QueueEntry.startService, QueueEntry.completeService,
      QueueEntry.markNoShow, QueueEntry.skipCustomer, QueueEntry.cancelEntry, h]

/-- Witness of C10, amended: the no-show entry rejects the five transitions and
accepts a cancellation. -/
theorem terminal_entry_transitions_witness :
    noShowEntry.status = .no_show ∧
    (noShowEntry.markNoShow 700000 700000).thrown ≠ none ∧
    (noShowEntry.cancelEntry none none none 700000 700000).state.status = .cancelled :=
  have h := terminal_entry_transitions noShowEntry (by decide) (some 7) none none none
    none none 700000 700000
  ⟨by decide, h.2.2.2.1.1, (h.2.2.2.2.2.2 (by decide)).2⟩

/-! ## Update-status handler -/

/-- C11, the code at the failing input: for a completed entry and the requested
status cancelled, the switch of the handler assigns the status without a guard:
the entry is stored as cancelled, although (completed, cancelled) is no row of
the transition table and `cancelEntry` rejects the same change. With the models
bound the handler stores the change before it throws at
`queue.updateCurrentSize()`; with the bindings of the source it throws before
it loads the entry. -/
theorem updateEntry_cancels_completed_entry :
    completedEntry.status = .completed ∧
    (updateEntry completedEntry { entryId := 8, status := .cancelled, userId := 5 }
      800000 800000).thrown = none ∧
    (updateEntry completedEntry { entryId := 8, status := .cancelled, userId := 5 }
      800000 800000).state.status = .cancelled ∧
    (completedEntry.cancelEntry none none none 800000 800000).thrown
      = some "Cannot cancel completed entry" ∧
    statusOf (updateHandler modelsBound completedSession
      { entryId := 8, status := .cancelled, userId := 5 } 800000 800000).state 8
      = some .cancelled ∧
    (updateHandler routeImports completedSession
      { entryId := 8, status := .cancelled, userId := 5 } 800000 800000).thrown
      = some "TypeError: Cannot read properties of undefined (reading findById)" := by
  decide

/-! ## Staff binding and frozen wait of an entry -/

/-- No method of an entry clears `staff_id`. -/
theorem EntryOp.run_keeps_staff (op : EntryOp) (e : QueueEntry)
    (h : e.staff_id.isSome = true) : (op.run e).state.staff_id.isSome = true := by
  cases op <;>
    simp only [EntryOp.run, QueueEntry.callCustomer, QueueEntry.startService,
      QueueEntry.completeService, QueueEntry.markNoShow, QueueEntry.cancelEntry,
      QueueEntry.skipCustomer, QueueEntry.updatePosition,
      QueueEntry.updateEstimatedWaitTime] <;>
    (repeat' split) <;> first | exact h | rfl

/-- One successful call that is not a `callCustomer` without staff id keeps the
binding property. -/
theorem EntryOp.run_staffBoundWhenCalled (op : EntryOp) (e : QueueEntry)
    (hop : op.isCallWithoutStaff = false) (hok : (op.run e).thrown = none)
    (h : staffBoundWhenCalled e) : staffBoundWhenCalled (op.run e).state := by
  obtain ⟨hw, hc⟩ := h
  cases op with
  | callCustomer st t1 t2 =>
    cases st with
    | none => simp [EntryOp.isCallWithoutStaff] at hop
    | some v =>
      by_cases hs : e.status = .waiting
      · simp [EntryOp.run, QueueEntry.callCustomer, hs, staffBoundWhenCalled]
      · simp [EntryOp.run, QueueEntry.callCustomer, hs] at hok
  | startService st t =>
    by_cases hs : e.status = .called
    · have := hc (Or.inl hs)
      cases st <;>
        simp [EntryOp.run, QueueEntry.startService, hs, staffBoundWhenCalled, this]
    · simp [EntryOp.run, QueueEntry.startService, hs] at hok
  | completeService d p t1 t2 =>
    by_cases hs : e.status = .in_service
    · cases p <;>
        simp [EntryOp.run, QueueEntry.completeService, hs, staffBoundWhenCalled]
    · simp [EntryOp.run, QueueEntry.completeService, hs] at hok
  | markNoShow t1 t2 =>
    by_cases hs : e.status = .waiting ∨ e.status = .called
    · simp [EntryOp.run, QueueEntry.markNoShow, hs, staffBoundWhenCalled]
    · simp [EntryOp.run, QueueEntry.markNoShow, hs] at hok
  | cancelEntry r c f t1 t2 =>
    by_cases hs : e.status = .completed
    · simp [EntryOp.run, QueueEntry.cancelEntry, hs] at hok
    · simp [EntryOp.run, QueueEntry.cancelEntry, hs, staffBoundWhenCalled]
  | skipCustomer r =>
    by_cases hs : e.status = .called
    · simp [EntryOp.run, QueueEntry.skipCustomer, hs, staffBoundWhenCalled]
    · simp [EntryOp.run, QueueEntry.skipCustomer, hs] at hok
  | updatePosition p r t =>
    exact ⟨fun h1 => hw h1, fun h1 => hc h1⟩
  | updateEstimatedWaitTime w t =>
    exact ⟨fun h1 => hw h1, fun h1 => hc h1⟩

/-- The binding property holds at the end of every run of successful calls. -/
theorem runSuccessful_staffBoundWhenCalled (ops : List EntryOp) :
    ∀ e0 e : QueueEntry, (∀ op ∈ ops, op.isCallWithoutStaff = false) →
      staffBoundWhenCalled e0 → runSuccessful e0 ops = some e → staffBoundWhenCalled e := by
  induction ops with
  | nil =>
    intro e0 e _ h hrun
    simp only [runSuccessful, Option.some.injEq] at hrun
    exact hrun ▸ h
  | cons op rest ih =>
    intro e0 e hops h hrun
    cases ht : (op.run e0).thrown with
    | some msg => simp [runSuccessful, ht] at hrun
    | none =>
      simp only [runSuccessful, ht] at hrun
      exact ih (op.run e0).state e
        (fun o ho => hops o (List.mem_cons_of_mem op ho))
        (EntryOp.run_staffBoundWhenCalled op e0 (hops op (List.mem_cons_self op rest)) ht h)
        hrun

/-- C12, counterexample: called by staff member 7, served and completed, an
entry is completed and still carries staff member 7; called without a staff id,
an entry is called and carries none. -/
theorem completed_entry_keeps_staff :
    waitingSinceZero.status = .waiting ∧ waitingSinceZero.staff_id = none ∧
    (runSuccessful waitingSinceZero servedOps).map (fun e => (e.status, e.staff_id))
      = some (.completed, some 7) ∧
    (runSuccessful waitingSinceZero [.callCustomer none 60000 60000]).map
      (fun e => (e.status, e.staff_id)) = some (.called, none) := by
  decide

/-- C12, amended: for every entry reached from a newly admitted waiting entry
(no `staff_id`) by successful method calls in which every `callCustomer` is
given a staff id, `staff_id` is set whenever the status is called or in_service
and is not set while the status is waiting; no method clears `staff_id`, so it
stays set after the entry leaves called or in_service. -/
theorem staff_bound_after_successful_calls (e0 e : QueueEntry) (ops : List EntryOp)
    (h0 : e0.status = .waiting ∧ e0.staff_id = none)
    (hops : ∀ op ∈ ops, op.isCallWithoutStaff = false)
    (hrun : runSuccessful e0 ops = some e) :
    (e.status = .called ∨ e.status = .in_service → e.staff_id.isSome = true) ∧
    (e.status = .waiting → e.staff_id = none) ∧
    (∀ op : EntryOp, e.staff_id.isSome = true → (op.run e).state.staff_id.isSome = true) := by
  have hinv : staffBoundWhenCalled e :=
    runSuccessful_staffBoundWhenCalled ops e0 e hops
      ⟨fun _ => h0.2, fun h => by rcases h with h | h <;> simp [h0.1] at h⟩ hrun
  exact ⟨hinv.2, hinv.1, fun op h => EntryOp.run_keeps_staff op e h⟩

/-- Witness of C12, amended: the entry called by staff member 7 carries a staff
member. -/
theorem staff_bound_after_successful_calls_witness :
    calledBySeven.status = .called ∧ calledBySeven.staff_id.isSome = true :=
  ⟨by decide,
    (staff_bound_after_successful_calls waitingSinceZero calledBySeven
      [.callCustomer (some 7) 60000 60000] (by decide) (by decide) (by decide)).1
      (Or.inl (by decide))⟩

/-- C13: once `actual_wait_time` holds a value, each of startService,
completeService, markNoShow, cancelEntry, skipCustomer, updatePosition and
updateEstimatedWaitTime leaves it equal to that value, whether the call succeeds
or throws. -/
theorem actual_wait_time_frozen (op : EntryOp) (e : QueueEntry) (v : Int)
    (hop : op.isCall = false) (h : e.actual_wait_time = some v) :
    (op.run e).state.actual_wait_time = some v := by
  cases op with
  | callCustomer st t1 t2 => simp [EntryOp.isCall] at hop
  | startService st t =>
    simp only [EntryOp.run, QueueEntry.startService]
    (repeat' split) <;> exact h
  | completeService d p t1 t2 =>
    simp only [EntryOp.run, QueueEntry.completeService]
    (repeat' split) <;> exact h
  | markNoShow t1 t2 =>
    simp only [EntryOp.run, QueueEntry.markNoShow]
    split
    · exact h
    · simp [QueueEntry.current_wait_time, h]
  | cancelEntry r c f t1 t2 =>
    simp only [EntryOp.run, QueueEntry.cancelEntry]
    split <;> exact h
  | skipCustomer r =>
    simp only [EntryOp.run, QueueEntry.skipCustomer]
    split <;> exact h
  | updatePosition p r t => exact h
  | updateEstimatedWaitTime w t => exact h

/-- Witness of C13: the entry called after one minute is marked as no-show
later and keeps its frozen wait of 1. -/
theorem actual_wait_time_frozen_witness :
    calledEntry.actual_wait_time = some 1 ∧
    (calledEntry.markNoShow 900000 900000).thrown = none ∧
    ((EntryOp.markNoShow 900000 900000).run calledEntry).state.actual_wait_time = some 1 :=
  ⟨by decide, by decide,
    actual_wait_time_frozen (.markNoShow 900000 900000) calledEntry 1 (by decide)
      (by decide)⟩

/-- Saving an entry in place of the stored one with its id keeps every value
that the two share. -/
theorem map_saveEntry {β : Type} (f : QueueEntry → β) (e : QueueEntry) :
    ∀ (l : List QueueEntry) (old : QueueEntry),
      l.find? (fun x => x.id = e.id) = some old → f e = f old →
      (saveEntry e l).map f = l.map f := by
  intro l
  induction l with
  | nil => intro old h; simp at h
  | cons x xs ih =>
    intro old h hf
    by_cases hx : x.id = e.id
    · simp only [List.find?_cons, hx, decide_True, Option.some.injEq] at h
      subst h
      simp [saveEntry, hx, hf]
    · simp only [List.find?_cons, hx, decide_False] at h
      simp only [saveEntry, hx, if_false, List.map_cons, ih old h hf]

/-- The entry `find?` returns carries the id that was asked for. -/
theorem find?_id (l : List QueueEntry) (k : ObjectId) (entry : QueueEntry)
    (h : l.find? (fun x => x.id = k) = some entry) : entry.id = k := by
  have := List.find?_some h
  simpa using this

/-- The remove handler never writes `actual_wait_time`, whatever the bindings,
the entry and the reason. -/
theorem removeHandler_keeps_actual_wait_time (im : Imports) (s : Session)
    (entryId : ObjectId) (reason : Option String) :
    (removeHandler im s entryId reason).state.entries.map (fun e => e.actual_wait_time)
      = s.entries.map (fun e => e.actual_wait_time) := by
  unfold removeHandler
  split
  · rfl
  · split
    · rfl
    · rename_i entry hf
      have hid : entry.id = entryId := find?_id _ _ _ hf
      have hmap := map_saveEntry (fun e => e.actual_wait_time)
        { entry with status := .cancelled } s.entries entry (by rw [← hid] at hf; exact hf) rfl
      split
      · rfl
      · split <;> exact hmap

/-- C14, counterexample: an entry that has waited ten minutes is cancelled by
`cancelEntry`, and its `actual_wait_time` stays unset. -/
theorem cancellation_leaves_wait_unset :
    waitingSinceZero.status = .waiting ∧
    minutesBetween waitingSinceZero.check_in_time 600000 = 10 ∧
    (waitingSinceZero.cancelEntry (some "left") none none 600000 600000).thrown = none ∧
    (waitingSinceZero.cancelEntry (some "left") none none 600000 600000).state.status
      = .cancelled ∧
    (waitingSinceZero.cancelEntry (some "left") none none 600000 600000).state.actual_wait_time
      = none := by
  decide

/-- C14, amended: when an entry whose status is waiting is cancelled by
`cancelEntry`, the entry becomes cancelled and its `actual_wait_time` is not
written: it keeps the value it had, unset for an entry that was never called;
the remove handler does not write `actual_wait_time` either. -/
theorem cancellation_keeps_actual_wait_time (entry : QueueEntry)
    (reason : Option String) (cancelledBy : Option ObjectId) (refundIssued : Option Bool)
    (t1 t2 : Int) (im : Imports) (s : Session) (entryId : ObjectId)
    (hw : entry.status = .waiting) :
    (entry.cancelEntry reason cancelledBy refundIssued t1 t2).thrown = none ∧
    (entry.cancelEntry reason cancelledBy refundIssued t1 t2).state.status = .cancelled ∧
    (entry.cancelEntry reason cancelledBy refundIssued t1 t2).state.actual_wait_time
      = entry.actual_wait_time ∧
    (removeHandler im s entryId reason).state.entries.map (fun e => e.actual_wait_time)
      = s.entries.map (fun e => e.actual_wait_time) := by
  refine ⟨?_, ?_, ?_, removeHandler_keeps_actual_wait_time im s entryId reason⟩
  · simp [QueueEntry.cancelEntry, hw]
  · simp [QueueEntry.cancelEntry, hw]
  · simp [QueueEntry.cancelEntry, hw]

/-- Witness of C14, amended: the entry waiting since instant 0, cancelled after
ten minutes. -/
theorem cancellation_keeps_actual_wait_time_witness :
    waitingSinceZero.actual_wait_time = none ∧
    (waitingSinceZero.cancelEntry none none none 600000 600000).state.actual_wait_time
      = waitingSinceZero.actual_wait_time :=
  ⟨by decide,
    (cancellation_keeps_actual_wait_time waitingSinceZero none none none 600000 600000
      routeImports waitingSession 6 (by decide)).2.2.1⟩

/-! ## Staff assignment -/

/-- The slot `updateFirstStaff` rewrites is the one `find?` returns, and it is
found again under the same id when `f` keeps the id. -/
theorem find?_updateFirstStaff (staffId : ObjectId) (f : StaffAssignment → StaffAssignment)
    (hf : ∀ x, (f x).staff_id = x.staff_id) :
    ∀ (l : List StaffAssignment) (slot : StaffAssignment),
      l.find? (fun x => x.staff_id = staffId) = some slot →
      (updateFirstStaff staffId f l).find? (fun x => x.staff_id = staffId) = some (f slot) := by
  intro l
  induction l with
  | nil => intro slot h; simp at h
  | cons x xs ih =>
    intro slot h
    by_cases hx : x.staff_id = staffId
    · have hfx : (f x).staff_id = staffId := by rw [hf]; exact hx
      simp only [List.find?_cons, hx, decide_True, Option.some.injEq] at h
      subst h
      simp only [updateFirstStaff, hx, if_true, List.find?_cons, hfx, decide_True]
    · simp only [List.find?_cons, hx, decide_False] at h
      simp only [updateFirstStaff, hx, if_false, List.find?_cons, decide_False]
      exact ih slot h

/-- The slots of the other staff members are found unchanged. -/
theorem find?_updateFirstStaff_ne (staffId other : ObjectId)
    (f : StaffAssignment → StaffAssignment) (hf : ∀ x, (f x).staff_id = x.staff_id)
    (hne : other ≠ staffId) :
    ∀ l : List StaffAssignment,
      (updateFirstStaff staffId f l).find? (fun x => x.staff_id = other)
        = l.find? (fun x => x.staff_id = other) := by
  intro l
  induction l with
  | nil => rfl
  | cons x xs ih =>
    by_cases hx : x.staff_id = staffId
    · have h1 : ¬ x.staff_id = other := fun h => hne (h.symm.trans hx)
      have h2 : ¬ (f x).staff_id = other := by rw [hf]; exact h1
      have d1 : decide (x.staff_id = other) = false := decide_eq_false h1
      have d2 : decide ((f x).staff_id = other) = false := decide_eq_false h2
      simp only [updateFirstStaff, if_pos hx, List.find?_cons, d1, d2]
    · simp only [updateFirstStaff, if_neg hx, List.find?_cons, ih]

/-- No slot is found exactly when no slot of the roster carries the id. -/
theorem find?_staff_eq_none (l : List StaffAssignment) (staffId : ObjectId) :
    l.find? (fun x => x.staff_id = staffId) = none ↔ ∀ x ∈ l, x.staff_id ≠ staffId := by
  simp [List.find?_eq_none]

/-- C15, counterexample: staff member 7 is assigned to entry 1 and then, with
no release in between, to entry 2; the second call succeeds and leaves the slot
bound to entry 2. -/
theorem assignStaff_twice_rebinds :
    ((rosterQueue.assignStaffToCustomer 7 1).state.assignStaffToCustomer 7 2).thrown = none ∧
    (((rosterQueue.assignStaffToCustomer 7 1).state.assignStaffToCustomer 7 2).state.staffSlot 7).map
      (fun slot => (slot.current_customer, slot.is_available)) = some (some 2, false) := by
  decide

/-- C15, amended: `assignStaffToCustomer(staffId, entryId)` fails with 'Staff
member not found', changing nothing, when no slot has that `staff_id`; otherwise,
whether the slot is available or not, it sets the slot's `current_customer` to
`entryId` and `is_available` to false and leaves the other slots as they were;
in particular assigning a staff member to one entry and then to another without
a release succeeds both times and leaves the slot bound to the second entry. -/
theorem assignStaffToCustomer_spec (q : Queue) (staffId entryId entryId2 : ObjectId) :
    ((∀ slot ∈ q.staff_assignments, slot.staff_id ≠ staffId) →
      (q.assignStaffToCustomer staffId entryId).thrown = some "Staff member not found" ∧
      (q.assignStaffToCustomer staffId entryId).state = q) ∧
    (∀ slot, q.staffSlot staffId = some slot →
      (q.assignStaffToCustomer staffId entryId).thrown = none ∧
      (q.assignStaffToCustomer staffId entryId).state.staffSlot staffId
        = some { slot with current_customer := some entryId, is_available := false } ∧
      (∀ other, other ≠ staffId →
        (q.assignStaffToCustomer staffId entryId).state.staffSlot other = q.staffSlot other) ∧
      ((q.assignStaffToCustomer staffId entryId).state.assignStaffToCustomer staffId
        entryId2).thrown = none ∧
      ((q.assignStaffToCustomer staffId entryId).state.assignStaffToCustomer staffId
        entryId2).state.staffSlot staffId
        = some { slot with current_customer := some entryId2, is_available := false }) := by
  have once : ∀ (q : Queue) (en : ObjectId) (slot : StaffAssignment),
      q.staffSlot staffId = some slot →
      (q.assignStaffToCustomer staffId en).thrown = none ∧
      (q.assignStaffToCustomer staffId en).state.staffSlot staffId
        = some { slot with current_customer := some en, is_available := false } := by
    intro q en slot hs
    have hs2 : q.staff_assignments.find? (fun x => x.staff_id = staffId) = some slot := hs
    have hfind := find?_updateFirstStaff staffId
      (fun staff => { staff with current_customer := some en, is_available := false })
      (fun _ => rfl) q.staff_assignments slot hs2
    simp only [Queue.assignStaffToCustomer, hs2, Queue.staffSlot]
    exact ⟨trivial, hfind⟩
  constructor
  · intro hnone
    have h := (find?_staff_eq_none q.staff_assignments staffId).mpr hnone
    simp [Queue.assignStaffToCustomer, h]
  · intro slot hs
    obtain ⟨h1, h2⟩ := once q entryId slot hs
    obtain ⟨h3, h4⟩ := once (q.assignStaffToCustomer staffId entryId).state entryId2 _ h2
    refine ⟨h1, h2, ?_, h3, h4⟩
    intro other hne
    have hs2 : q.staff_assignments.find? (fun x => x.staff_id = staffId) = some slot := hs
    simp only [Queue.assignStaffToCustomer, hs2, Queue.staffSlot]
    refine find?_updateFirstStaff_ne staffId other _ ?_ hne q.staff_assignments
    intro _; rfl

/-- C16: `releaseStaff(staffId)` fails with 'Staff member not found' and changes
nothing when no slot has that `staff_id`; otherwise it sets the slot's
`current_customer` to null and `is_available` to true, raises
`customers_served_today` by exactly 1 and leaves the other slots as they were. -/
theorem releaseStaff_spec (q : Queue) (staffId : ObjectId) :
    ((∀ slot ∈ q.staff_assignments, slot.staff_id ≠ staffId) →
      (q.releaseStaff staffId).thrown = some "Staff member not found" ∧
      (q.releaseStaff staffId).state = q) ∧
    (∀ slot, q.staffSlot staffId = some slot →
      (q.releaseStaff staffId).thrown = none ∧
      (q.releaseStaff staffId).state.staffSlot staffId
        = some { slot with
            current_customer := none
            is_available := true
            customers_served_today := slot.customers_served_today + 1 } ∧
      (∀ other, other ≠ staffId →
        (q.releaseStaff staffId).state.staffSlot other = q.staffSlot other)) := by
  constructor
  · intro hnone
    have h := (find?_staff_eq_none q.staff_assignments staffId).mpr hnone
    simp [Queue.releaseStaff, h]
  · intro slot hs
    have hs2 : q.staff_assignments.find? (fun x => x.staff_id = staffId) = some slot := hs
    have hfind := find?_updateFirstStaff staffId
      (fun staff => { staff with
        current_customer := none
        is_available := true
        customers_served_today := staff.customers_served_today + 1 })
      (fun _ => rfl) q.staff_assignments slot hs2
    refine ⟨?_, ?_, ?_⟩
    · simp [Queue.releaseStaff, hs2]
    · simp only [Queue.releaseStaff, hs2, Queue.staffSlot]
      exact hfind
    · intro other hne
      simp only [Queue.releaseStaff, hs2, Queue.staffSlot]
      refine find?_updateFirstStaff_ne staffId other _ ?_ hne q.staff_assignments
      intro _; rfl

/-- Every slot of a rewritten roster is an old slot or the image of one. -/
theorem mem_updateFirstStaff (staffId : ObjectId) (f : StaffAssignment → StaffAssignment) :
    ∀ (l : List StaffAssignment) (y : StaffAssignment),
      y ∈ updateFirstStaff staffId f l → y ∈ l ∨ ∃ x ∈ l, y = f x := by
  intro l
  induction l with
  | nil => intro y h; simp [updateFirstStaff] at h
  | cons x xs ih =>
    intro y h
    by_cases hx : x.staff_id = staffId
    · simp only [updateFirstStaff, hx, if_true, List.mem_cons] at h
      rcases h with h | h
      · exact Or.inr ⟨x, List.mem_cons_self x xs, h⟩
      · exact Or.inl (List.mem_cons_of_mem x h)
    · simp only [updateFirstStaff, hx, if_false, List.mem_cons] at h
      rcases h with h | h
      · exact Or.inl (h ▸ List.mem_cons_self x xs)
      · rcases ih y h with h1 | ⟨z, hz, hy⟩
        · exact Or.inl (List.mem_cons_of_mem x h1)
        · exact Or.inr ⟨z, List.mem_cons_of_mem x hz, hy⟩

/-- One staff method call keeps every slot consistent. -/
theorem StaffOp.run_consistent (op : StaffOp) (q : Queue)
    (h : ∀ slot ∈ q.staff_assignments, slotConsistent slot) :
    ∀ slot ∈ (op.run q).state.staff_assignments, slotConsistent slot := by
  intro slot hs
  cases op with
  | assignStaffToCustomer st en =>
    simp only [StaffOp.run, Queue.assignStaffToCustomer] at hs
    split at hs
    · rcases mem_updateFirstStaff _ _ _ _ hs with h1 | ⟨x, _, hy⟩
      · exact h slot h1
      · subst hy; simp [slotConsistent]
    · exact h slot hs
  | releaseStaff st =>
    simp only [StaffOp.run, Queue.releaseStaff] at hs
    split at hs
    · rcases mem_updateFirstStaff _ _ _ _ hs with h1 | ⟨x, _, hy⟩
      · exact h slot h1
      · subst hy; simp [slotConsistent]
    · exact h slot hs

/-- Consistency of every slot survives a whole run of staff method calls. -/
theorem runStaffOps_consistent (ops : List StaffOp) :
    ∀ q : Queue, (∀ slot ∈ q.staff_assignments, slotConsistent slot) →
      ∀ slot ∈ (runStaffOps q ops).staff_assignments, slotConsistent slot := by
  induction ops with
  | nil => intro q h; exact h
  | cons op rest ih =>
    intro q h
    exact ih (op.run q).state (StaffOp.run_consistent op q h)

/-- C17: starting from a roster of free slots, after any sequence of
assignStaffToCustomer and releaseStaff calls, with any staff and entry ids and
whether the calls succeed or throw, every slot has `is_available` false exactly
when `current_customer` is non-null. -/
theorem slots_consistent_after_staff_ops (q : Queue) (ops : List StaffOp)
    (hfree : ∀ slot ∈ q.staff_assignments,
      slot.is_available = true ∧ slot.current_customer = none) :
    ∀ slot ∈ (runStaffOps q ops).staff_assignments,
      (slot.is_available = false ↔ slot.current_customer ≠ none) :=
  runStaffOps_consistent ops q (fun slot hs => by
    obtain ⟨h1, h2⟩ := hfree slot hs
    simp [slotConsistent, h1, h2])

/-- Witness of C17: on the roster of two free slots, staff member 7 is assigned
twice and released, staff member 9 is unknown. -/
theorem slots_consistent_after_staff_ops_witness :
    (runStaffOps rosterQueue
      [.assignStaffToCustomer 7 1, .assignStaffToCustomer 7 2, .assignStaffToCustomer 9 3,
        .assignStaffToCustomer 8 4, .releaseStaff 7]).staff_assignments.map
      (fun slot => (slot.is_available, slot.current_customer))
      = [(true, none), (false, some 4)] ∧
    ∀ slot ∈ (runStaffOps rosterQueue
      [.assignStaffToCustomer 7 1, .assignStaffToCustomer 7 2, .assignStaffToCustomer 9 3,
        .assignStaffToCustomer 8 4, .releaseStaff 7]).staff_assignments,
      (slot.is_available = false ↔ slot.current_customer ≠ none) :=
  ⟨by decide,
    slots_consistent_after_staff_ops rosterQueue _ (by decide)⟩

/-! ## Queue numbers -/

/-- C18, the code at the failing input: for a session without entries the next
queue number is 1; for a session that already holds one entry it is `NaN`,
because `queue_number` is not a path of the schema and reads `undefined` on the
last entry; and the add handler throws, with the models bound and with the
bindings of the source, so that no entry is given any number. -/
theorem nextQueueNumber_after_first_entry_is_NaN :
    nextQueueNumber [] = .value 1 ∧
    nextQueueNumber [waitingSinceZero] = .NaN ∧
    nextQueueNumber [highEntry, normalEntry] = .NaN ∧
    (addHandler modelsBound waitingSession { service_id := 9, customer_id := some 48 }).thrown
      = some "TypeError: queue.getEstimatedWaitTime is not a function" ∧
    (addHandler modelsBound waitingSession { service_id := 9, customer_id := some 48 }).state
      = waitingSession := by
  decide

/-! ## Admission and the status of the session -/

/-- C19: an admission request against a session whose status is paused or
closed is refused and creates no entry, and the entries already in the session
are unaffected: the add handler throws and leaves the session as it was, for
every session whatever its status, every request and every binding of the
models. -/
theorem addHandler_refuses_and_creates_no_entry (im : Imports) (s : Session)
    (r : AddRequest) :
    (addHandler im s r).thrown ≠ none ∧
    (addHandler im s r).state = s ∧
    (addHandler im s r).state.entries = s.entries := by
  unfold addHandler
  (repeat' split) <;> simp

/-! ## Removal -/

/-- C20, the code at the failing input: a waiting entry is removed with the
reason `left`. The reason is assigned to the nested path `notes`, the `save()`
rejects, and the entry is still stored as waiting, not cancelled; with the
bindings of the source the handler throws before it loads the entry. Removing a
completed entry without a reason is not refused as already terminal: with the
models bound the entry is stored as cancelled. -/
theorem removeHandler_with_reason_stores_nothing :
    statusOf waitingSession 6 = some .waiting ∧
    (removeHandler modelsBound waitingSession 6 (some "left")).thrown
      = some "ValidationError: notes: Cast to Object failed" ∧
    statusOf (removeHandler modelsBound waitingSession 6 (some "left")).state 6
      = some .waiting ∧
    (removeHandler routeImports waitingSession 6 (some "left")).thrown
      = some "TypeError: Cannot read properties of undefined (reading findById)" ∧
    statusOf (removeHandler routeImports waitingSession 6 (some "left")).state 6
      = some .waiting ∧
    statusOf completedSession 8 = some .completed ∧
    statusOf (removeHandler modelsBound completedSession 8 none).state 8
      = some .cancelled := by
  decide

/-! ## Wait-time estimates -/

/-- C21, the code at the failing input: an admission request below capacity,
with a service that exists and a customer id. The handler throws at
`queue.getEstimatedWaitTime()`, a method the Queue model does not define, before
it creates the entry: no estimate is computed and no entry is stored. With the
bindings of the source it throws already at `Queue.findOne`. -/
theorem addHandler_computes_no_estimate :
    waitingSession.queue.current_size < waitingSession.queue.max_capacity ∧
    (addHandler modelsBound waitingSession
      { service_id := 9, customer_id := some 49, priority := some .high }).thrown
      = some "TypeError: queue.getEstimatedWaitTime is not a function" ∧
    (addHandler modelsBound waitingSession
      { service_id := 9, customer_id := some 49, priority := some .high }).state.entries
      = [waitingSinceZero] ∧
    (addHandler routeImports waitingSession
      { service_id := 9, customer_id := some 49, priority := some .high }).thrown
      = some "TypeError: Cannot read properties of undefined (reading findOne)" ∧
    (addHandler routeImports waitingSession
      { service_id := 9, customer_id := some 49, priority := some .high }).state.entries
      = [waitingSinceZero] := by
  decide

/-- C22: `updateEstimatedWaitTime(e)` sets `estimated_wait_time` to `e` and
appends exactly one record, with the estimate and the timestamp, to
`queue_metrics.estimated_times`; the records already there are kept, in order,
as a prefix. It never throws. -/
theorem updateEstimatedWaitTime_spec (e : QueueEntry) (newEstimate now : Int) :
    (e.updateEstimatedWaitTime newEstimate now).thrown = none ∧
    (e.updateEstimatedWaitTime newEstimate now).state.estimated_wait_time = newEstimate ∧
    (e.updateEstimatedWaitTime newEstimate now).state.estimated_times
      = e.estimated_times ++ [{ estimated_wait := newEstimate, timestamp := now }] ∧
    (e.updateEstimatedWaitTime newEstimate now).state.estimated_times.length
      = e.estimated_times.length + 1 ∧
    e.estimated_times <+: (e.updateEstimatedWaitTime newEstimate now).state.estimated_times := by
  simp [QueueEntry.updateEstimatedWaitTime]

/-- C23: `updatePosition(p, reason)` sets `position` to `p` and appends exactly
one record to `queue_metrics.position_changes`, from the position held before
the call to `p`, with the supplied reason, or 'Position update' when none (or an
empty one) is supplied; the earlier records are kept, in order, as a prefix. -/
theorem updatePosition_spec (e : QueueEntry) (p : Int) (reason : Option String)
    (now : Int) :
    (e.updatePosition p reason now).thrown = none ∧
    (e.updatePosition p reason now).state.position = some p ∧
    (∀ text, reason = some text → text ≠ "" →
      (e.updatePosition p reason now).state.position_changes
        = e.position_changes ++
          [{ from_position := e.position, to_position := some p, timestamp := now,
             reason := text }]) ∧
    (reason = none ∨ reason = some "" →
      (e.updatePosition p reason now).state.position_changes
        = e.position_changes ++
          [{ from_position := e.position, to_position := some p, timestamp := now,
             reason := "Position update" }]) ∧
    (e.updatePosition p reason now).state.position_changes.length
      = e.position_changes.length + 1 ∧
    e.position_changes <+: (e.updatePosition p reason now).state.position_changes := by
  refine ⟨rfl, rfl, ?_, ?_, ?_, ?_⟩
  · intro text hr hne
    simp [QueueEntry.updatePosition, hr, truthyString, hne]
  · intro hr
    rcases hr with hr | hr <;> simp [QueueEntry.updatePosition, hr, truthyString]
  · simp [QueueEntry.updatePosition]
  · simp [QueueEntry.updatePosition]

/-- C24: `is_overdue` is true exactly when the status is waiting and the whole
minutes elapsed since `check_in_time` are strictly greater than
`estimated_wait_time + 15`; for every other status it is false. -/
theorem is_overdue_spec (e : QueueEntry) (now : Int) :
    (e.is_overdue now = true ↔
      e.status = .waiting ∧
        ⌊((now - e.check_in_time : Int) : ℚ) / 60000⌋ > e.estimated_wait_time + 15) ∧
    (e.status ≠ .waiting → e.is_overdue now = false) := by
  rw [← minutesBetween_eq_floor]
  by_cases h : e.status = .waiting
  · simp [QueueEntry.is_overdue, QueueEntry.current_wait_time, h]
  · simp [QueueEntry.is_overdue, h]

/-! ## Counters of the queue -/

/-- C26: `removeCustomer` lowers `current_size` by exactly 1 when it is
positive and leaves it at 0 when it is 0; it never throws, and it never makes a
non-negative `current_size` negative. -/
theorem removeCustomer_spec (q : Queue) (now : Int) :
    (q.removeCustomer now).thrown = none ∧
    (q.current_size > 0 → (q.removeCustomer now).state.current_size = q.current_size - 1) ∧
    (q.current_size = 0 → (q.removeCustomer now).state.current_size = 0) ∧
    (0 ≤ q.current_size → 0 ≤ (q.removeCustomer now).state.current_size) := by
  unfold Queue.removeCustomer
  by_cases h : q.current_size > 0
  · rw [if_pos h]
    exact ⟨rfl, fun _ => rfl, fun h0 => by omega, fun _ => by dsimp only; omega⟩
  · rw [if_neg h]
    exact ⟨rfl, fun h0 => absurd h0 h, fun h0 => h0, fun h0 => h0⟩

/-- C30: each of `serveCustomer`, `markNoShow` and `cancelCustomer` raises its
own counter by 1, leaves the two other counters, `max_capacity` and
`staff_assignments` as they were, and lowers `current_size` by 1 when it is
positive; when `current_size` is 0 it stays 0 and the counter is raised all the
same. None of them throws. -/
theorem queue_counters_spec (q : Queue) (now : Int) :
    ((q.serveCustomer now).thrown = none ∧
      (q.serveCustomer now).state.total_served = q.total_served + 1 ∧
      (q.serveCustomer now).state.total_no_shows = q.total_no_shows ∧
      (q.serveCustomer now).state.total_cancelled = q.total_cancelled ∧
      (q.serveCustomer now).state.max_capacity = q.max_capacity ∧
      (q.serveCustomer now).state.staff_assignments = q.staff_assignments ∧
      (q.current_size > 0 →
        (q.serveCustomer now).state.current_size = q.current_size - 1) ∧
      (q.current_size = 0 → (q.serveCustomer now).state.current_size = 0)) ∧
    ((q.markNoShow now).thrown = none ∧
      (q.markNoShow now).state.total_no_shows = q.total_no_shows + 1 ∧
      (q.markNoShow now).state.total_served = q.total_served ∧
      (q.markNoShow now).state.total_cancelled = q.total_cancelled ∧
      (q.markNoShow now).state.max_capacity = q.max_capacity ∧
      (q.markNoShow now).state.staff_assignments = q.staff_assignments ∧
      (q.current_size > 0 →
        (q.markNoShow now).state.current_size = q.current_size - 1) ∧
      (q.current_size = 0 → (q.markNoShow now).state.current_size = 0)) ∧
    ((q.cancelCustomer now).thrown = none ∧
      (q.cancelCustomer now).state.total_cancelled = q.total_cancelled + 1 ∧
      (q.cancelCustomer now).state.total_served = q.total_served ∧
      (q.cancelCustomer now).state.total_no_shows = q.total_no_shows ∧
      (q.cancelCustomer now).state.max_capacity = q.max_capacity ∧
      (q.cancelCustomer now).state.staff_assignments = q.staff_assignments ∧
      (q.current_size > 0 →
        (q.cancelCustomer now).state.current_size = q.current_size - 1) ∧
      (q.current_size = 0 → (q.cancelCustomer now).state.current_size = 0)) := by
  unfold Queue.serveCustomer Queue.markNoShow Queue.cancelCustomer Queue.removeCustomer
  by_cases h : q.current_size > 0
  · simp [h]
    intro h0
    omega
  · simp only [h, if_false]
    simp

/-! ## Cancellation, skipping and rejected transitions -/

/-- C27: `cancelEntry(reason, cancelledBy, refundIssued)` on an entry whose
status is waiting, called or in_service sets the status to cancelled, stamps
`completion_time` and records `cancellation_info` with the supplied reason and
`cancelled_by` and with `refund_issued` equal to the supplied flag, false when
it is omitted. -/
theorem cancelEntry_spec (e : QueueEntry) (reason : Option String)
    (cancelledBy : Option ObjectId) (refundIssued : Option Bool)
    (completionNow cancelledNow : Int)
    (h : e.status = .waiting ∨ e.status = .called ∨ e.status = .in_service) :
    (e.cancelEntry reason cancelledBy refundIssued completionNow cancelledNow).thrown = none ∧
    (e.cancelEntry reason cancelledBy refundIssued completionNow cancelledNow).state.status
      = .cancelled ∧
    (e.cancelEntry reason cancelledBy refundIssued completionNow cancelledNow).state.completion_time
      = some completionNow ∧
    (∀ flag, refundIssued = some flag →
      (e.cancelEntry reason cancelledBy refundIssued completionNow
        cancelledNow).state.cancellation_info
        = some { reason := reason, cancelled_by := cancelledBy,
                 cancelled_at := cancelledNow, refund_issued := flag }) ∧
    (refundIssued = none →
      (e.cancelEntry reason cancelledBy refundIssued completionNow
        cancelledNow).state.cancellation_info
        = some { reason := reason, cancelled_by := cancelledBy,
                 cancelled_at := cancelledNow, refund_issued := false }) := by
  have hne : e.status ≠ .completed := by
    rcases h with h | h | h <;> simp [h]
  refine ⟨?_, ?_, ?_, ?_, ?_⟩
  · simp [QueueEntry.cancelEntry, hne]
  · simp [QueueEntry.cancelEntry, hne]
  · simp [QueueEntry.cancelEntry, hne]
  · intro flag hf
    simp [QueueEntry.cancelEntry, hne, hf]
  · intro hf
    simp [QueueEntry.cancelEntry, hne, hf]

/-- Witness of C27: the called entry is cancelled by staff member 7 with a
refund. -/
theorem cancelEntry_spec_witness :
    calledEntry.status = .called ∧
    (calledEntry.cancelEntry (some "left") (some 7) (some true) 200000 200001).state.status
      = .cancelled ∧
    (calledEntry.cancelEntry (some "left") (some 7) (some true) 200000
      200001).state.cancellation_info
      = some { reason := some "left", cancelled_by := some 7, cancelled_at := 200001,
               refund_issued := true } :=
  have h := cancelEntry_spec calledEntry (some "left") (some 7) (some true) 200000 200001
    (by decide)
  ⟨by decide, h.2.1, h.2.2.2.1 true rfl⟩

/-- C28: `skipCustomer(reason)` succeeds exactly when the status is called; on
success the status becomes skipped and `notes.staff_notes` becomes the previous
staff notes (empty if none) followed by a line break, `Skipped: ` and the
reason, so the earlier notes are a prefix; position, the timestamps and
`actual_wait_time` are unchanged. The notes are the nested object of the
schema. -/
theorem skipCustomer_spec (e : QueueEntry) (reason : String) (n : Notes)
    (hn : e.notes = .nested n) :
    ((e.skipCustomer (some reason)).thrown = none ↔ e.status = .called) ∧
    (e.status = .called →
      (e.skipCustomer (some reason)).state.status = .skipped ∧
      (e.skipCustomer (some reason)).state.notes.staff_notes
        = some (n.staff_notes.getD "" ++ "\nSkipped: " ++ reason) ∧
      (n.staff_notes.getD "").toList <+:
        (((e.skipCustomer (some reason)).state.notes.staff_notes).getD "").toList ∧
      (e.skipCustomer (some reason)).state.position = e.position ∧
      (e.skipCustomer (some reason)).state.check_in_time = e.check_in_time ∧
      (e.skipCustomer (some reason)).state.called_time = e.called_time ∧
      (e.skipCustomer (some reason)).state.service_start_time = e.service_start_time ∧
      (e.skipCustomer (some reason)).state.service_end_time = e.service_end_time ∧
      (e.skipCustomer (some reason)).state.completion_time = e.completion_time ∧
      (e.skipCustomer (some reason)).state.actual_wait_time = e.actual_wait_time) ∧
    (e.status ≠ .called → (e.skipCustomer (some reason)).state = e) := by
  by_cases h : e.status = .called
  · cases hs : n.staff_notes <;>
      simp [QueueEntry.skipCustomer, h, hn, NotesVal.staff_notes, NotesVal.setStaffNotes, hs,
        String.toList, List.append_assoc]
  · simp [QueueEntry.skipCustomer, h]

/-- Witness of C28: the called entry, which has no staff notes yet, is
skipped. -/
theorem skipCustomer_spec_witness :
    calledEntry.notes = .nested {} ∧
    (calledEntry.skipCustomer (some "absent")).state.status = .skipped ∧
    (calledEntry.skipCustomer (some "absent")).state.notes.staff_notes
      = some ("" ++ "\nSkipped: " ++ "absent") :=
  have h := (skipCustomer_spec calledEntry "absent" {} rfl).2.1 (by decide)
  ⟨rfl, h.1, h.2.1⟩

/-- C29: when callCustomer, startService, completeService, markNoShow,
cancelEntry or skipCustomer throws, the entry is left exactly as it was: no
field has been written. -/
theorem rejected_transition_is_atomic (op : EntryOp) (e : QueueEntry)
    (h : (op.run e).thrown ≠ none) : (op.run e).state = e := by
  cases op with
  | callCustomer st t1 t2 =>
    by_cases hs : e.status = .waiting
    · cases st <;> simp [EntryOp.run, QueueEntry.callCustomer, hs] at h
    · simp [EntryOp.run, QueueEntry.callCustomer, hs]
  | startService st t =>
    by_cases hs : e.status = .called
    · cases st <;> simp [EntryOp.run, QueueEntry.startService, hs] at h
    · simp [EntryOp.run, QueueEntry.startService, hs]
  | completeService d p t1 t2 =>
    by_cases hs : e.status = .in_service
    · cases p <;> simp [EntryOp.run, QueueEntry.completeService, hs] at h
    · simp [EntryOp.run, QueueEntry.completeService, hs]
  | markNoShow t1 t2 =>
    by_cases hs : e.status = .waiting ∨ e.status = .called
    · simp [EntryOp.run, QueueEntry.markNoShow, hs] at h
    · simp [EntryOp.run, QueueEntry.markNoShow, hs]
  | cancelEntry r c f t1 t2 =>
    by_cases hs : e.status = .completed
    · simp [EntryOp.run, QueueEntry.cancelEntry, hs]
    · simp [EntryOp.run, QueueEntry.cancelEntry, hs] at h
  | skipCustomer r =>
    by_cases hs : e.status = .called
    · simp [EntryOp.run, QueueEntry.skipCustomer, hs] at h
    · simp [EntryOp.run, QueueEntry.skipCustomer, hs]
  | updatePosition p r t => simp [EntryOp.run, QueueEntry.updatePosition] at h
  | updateEstimatedWaitTime w t =>
    simp [EntryOp.run, QueueEntry.updateEstimatedWaitTime] at h

/-- Witness of C29: completing the entry that still waits throws and leaves it
as it was. -/
theorem rejected_transition_is_atomic_witness :
    ((EntryOp.completeService (some 12) none 600000 600000).run waitingSinceZero).thrown
      = some "Service can only be completed when in service" ∧
    ((EntryOp.completeService (some 12) none 600000 600000).run waitingSinceZero).state
      = waitingSinceZero :=
  ⟨by decide,
    rejected_transition_is_atomic (.completeService (some 12) none 600000 600000)
      waitingSinceZero (by decide)⟩

/-! ## End-to-end scenario -/

/-- C25, the code at the failing input: in the session of the scenario, with
`max_capacity` 2 and no entry, the admission of A is refused: the handler throws
at `Queue.findOne` with the bindings of the source, and at
`queue.getEstimatedWaitTime()` with the models bound; no entry is stored and the
occupancy stays 0. Call-next then throws as well and returns no entry. -/
theorem scenario_first_admission_is_refused :
    scenarioStart.queue.max_capacity = 2 ∧
    (addHandler routeImports scenarioStart requestA).thrown
      = some "TypeError: Cannot read properties of undefined (reading findOne)" ∧
    (addHandler routeImports scenarioStart requestA).state = scenarioStart ∧
    (addHandler modelsBound scenarioStart requestA).thrown
      = some "TypeError: queue.getEstimatedWaitTime is not a function" ∧
    (addHandler modelsBound scenarioStart requestA).state = scenarioStart ∧
    (addHandler routeImports scenarioStart requestA).state.queue.current_size = 0 ∧
    (addHandler routeImports scenarioStart requestA).state.entries = [] ∧
    (callNextHandler routeImports scenarioStart (some 7) 5 3000 3000).1.thrown
      = some "TypeError: Cannot read properties of undefined (reading findOne)" ∧
    (callNextHandler routeImports scenarioStart (some 7) 5 3000 3000).2 = none := by
  decide

end KingsBarbershop
